import Mathlib

/-!
Verification of the `burst_to_ard` pipeline orchestrator
(`src/ost/s1/burst_to_ard.py`) against its natural-language specification.

The orchestrator drives an external processing engine through a sequence of
conditionally executed stages, manages intermediate artifacts in a temp
directory, moves final products to an output directory, and reacts to stage
failures.  The embedding below models the on-disk state of the two
directories, the engine as an oracle assigning an exit code to every
invocation site, and the orchestrator's control flow exactly as written in
the source, including early returns and the reuse of the single
`return_code` variable.

The helper module `ost.helpers.helpers` (`run_command`, `check_out_dimap`,
`move_dimap`, `delete_dimap`, `remove_folder_content`) is not part of the
sources; those operations are modelled from the specification's
Artifact Lifecycle Manager and Stage Executor sections and are marked
`Modelled from the spec:` in their doc comments.
-/

namespace OST

/-- Tags identifying each distinct external-engine invocation site inside
`burst_to_ard` (the oracle assigns an exit code per site; the master and the
slave import are distinct invocations of `_import`). -/
inductive StageTag where
  | importMaster
  | haAlpha
  | haaTc
  | calibration
  | speckle
  | terrainFlat
  | linToDb
  | bsTc
  | lsMask
  | importSlave
  | coreg
  | coherenceEst
  | cohTc
  deriving DecidableEq, Repr

/-- Observable events of one run: engine invocations (with the log file they
produce), artifact checks, moves to the output directory, artifact
deletions, directory purges, and the completion-marker write. -/
inductive Event where
  | invoke (tag : StageTag) (logName : String)
  | checkDimap (name : String)
  | moveOut (name : String)
  | deleteArt (name : String)
  | purgeTemp
  | purgeOut
  | writeMarker
  deriving DecidableEq, Repr

/-- On-disk state of the run: artifact names in the temp directory, artifact
names and log files in the output directory, whether the completion marker
`.processed` is present in the output directory, and the event trace. -/
structure RunState where
  temp : Finset String
  outArt : Finset String
  outLogs : Finset String
  marker : Bool
  trace : List Event
  deriving DecidableEq

/-- The empty initial state: both directories empty, no marker, no events. -/
def RunState.start : RunState := ⟨∅, ∅, ∅, false, []⟩

/-- The output directory contains zero entries. -/
def RunState.outEmpty (s : RunState) : Prop :=
  s.outArt = ∅ ∧ s.outLogs = ∅ ∧ s.marker = false

instance (s : RunState) : Decidable s.outEmpty := by
  unfold RunState.outEmpty; infer_instance

/-- Behaviour of the external processing engine and of artifact statistics:
the exit code returned at each invocation site, and whether a produced
artifact has computable summary statistics. -/
structure Oracle where
  exitCode : StageTag → Nat
  statsOk : String → Bool

/-- The `single ARD` section of the processing-parameters file, as read at
the top of `burst_to_ard` (`ard_params['single ARD']`). -/
structure Ard where
  h_a_alpha : Bool
  remove_pol_speckle : Bool
  product_type : String
  remove_speckle : Bool
  to_db : Bool
  create_ls_mask : Bool
  polarisation : String
  coherence_bands : String
  deriving DecidableEq

/-- Modelled from the spec: `purge(dir)` applied to the temp directory
(`h.remove_folder_content(temp_dir)`; `ost.helpers.helpers` is not under
`src/`).  Recursively clears all contents of the directory; idempotent. -/
def remove_folder_content_temp (s : RunState) : RunState :=
  { s with temp := ∅, trace := s.trace ++ [Event.purgeTemp] }

/-- Modelled from the spec: `purge(dir)` applied to the output directory
(`h.remove_folder_content(out_dir)`; `ost.helpers.helpers` is not under
`src/`).  Recursively clears all contents of the directory; idempotent. -/
def remove_folder_content_out (s : RunState) : RunState :=
  { s with outArt := ∅, outLogs := ∅, marker := false,
           trace := s.trace ++ [Event.purgeOut] }

/-- Modelled from the spec: the Stage Executor `run` (`h.run_command`, not
under `src/`).  Synchronously invokes the engine at the given site,
redirecting its diagnostic stream to `logName` (one log file written into
the output directory regardless of outcome), and returns the raw exit
status.  The engine writes its output artifact into the temp directory as a
side effect of a successful exit code. -/
def run_command (o : Oracle) (tag : StageTag) (outName logName : String)
    (s : RunState) : Nat × RunState :=
  let rc := o.exitCode tag
  let s1 : RunState :=
    { s with outLogs := insert logName s.outLogs,
             trace := s.trace ++ [Event.invoke tag logName] }
  if rc = 0 then (rc, { s1 with temp := insert outName s1.temp }) else (rc, s1)

/-- Modelled from the spec: `verify(handle, requireStatistics)`
(`h.check_out_dimap`, not under `src/`).  Confirms the expected
metadata+payload pair is present in the temp directory and, when
`test_stats` is true, that the payload has computable summary statistics;
returns 0 on success and a nonzero code on integrity failure. -/
def check_out_dimap (o : Oracle) (name : String) (test_stats : Bool)
    (s : RunState) : Nat × RunState :=
  let ok : Bool := decide (name ∈ s.temp) && (!test_stats || o.statsOk name)
  (if ok then 0 else 1,
   { s with trace := s.trace ++ [Event.checkDimap name] })

/-- Modelled from the spec: `delete(handle)` (`h.delete_dimap`, not under
`src/`).  Removes the metadata+payload pair from the temp directory as a
group; idempotent, deleting a non-existent handle is not an error. -/
def delete_dimap (name : String) (s : RunState) : RunState :=
  { s with temp := s.temp.erase name,
           trace := s.trace ++ [Event.deleteArt name] }

/-- Modelled from the spec: `moveToFinal(handle, destinationDir)`
(`h.move_dimap`, not under `src/`).  Relocates a temp artifact to the run's
output directory (all `move_dimap` calls in the source keep the base name
unchanged between temp and output). -/
def move_dimap (name : String) (s : RunState) : RunState :=
  { s with temp := s.temp.erase name,
           outArt := insert name s.outArt,
           trace := s.trace ++ [Event.moveOut name] }

/-- Embeds `_import`: a wrapper of the SNAP burst import.  `tag` identifies
the invocation site (master or slave) for the oracle; command-string
construction is out of scope. -/
def _import (o : Oracle) (tag : StageTag) ( out_prefix logfile : String)
    (s : RunState) : Nat × RunState :=
  run_command o tag out_prefix logfile s

/-- Embeds `_ha_alpha`: the H-A-alpha decomposition wrapper. -/
def _ha_alpha (o : Oracle) (outfile logfile : String) (s : RunState) :
    Nat × RunState :=
  run_command o .haAlpha outfile logfile s

/-- Embeds the `product_type` dispatch at the top of `_calibration`: the
graph chosen for each of the three supported calibration modes, `none` for
any other product type. -/
def calibration_graph (product_type : String) : Option String :=
  if product_type = "RTC" then some "S1_SLC_TNR_Calbeta_Deb.xml"
  else if product_type = "GTCgamma" then some "S1_SLC_TNR_CalGamma_Deb.xml"
  else if product_type = "GTCsigma" then some "S1_SLC_TNR_CalSigma_Deb.xml"
  else none

/-- Result of `_calibration`: either the process was terminated via
`sys.exit` (before any engine invocation), or the wrapper returned the
engine's exit code. -/
inductive CalOut where
  | exited (code : Nat) (s : RunState)
  | returned (code : Nat) (s : RunState)
  deriving DecidableEq

/-- Embeds `_calibration`: selects a calibration graph from `product_type`;
for an unsupported product type it calls `sys.exit(121)` before invoking
the engine, otherwise it runs the engine and returns the exit code. -/
def _calibration (o : Oracle) (outfile logfile product_type : String)
    (s : RunState) : CalOut :=
  match calibration_graph product_type with
  | some _ =>
    let r := run_command o .calibration outfile logfile s
    .returned r.1 r.2
  | none => .exited 121 s

/-- Embeds `_terrain_flattening`. -/
def _terrain_flattening (o : Oracle) (outfile logfile : String)
    (s : RunState) : Nat × RunState :=
  run_command o .terrainFlat outfile logfile s

/-- Embeds `_speckle_filter`. -/
def _speckle_filter (o : Oracle) (outfile logfile : String) (s : RunState) :
    Nat × RunState :=
  run_command o .speckle outfile logfile s

/-- Embeds `_linear_to_db`. -/
def _linear_to_db (o : Oracle) (outfile logfile : String) (s : RunState) :
    Nat × RunState :=
  run_command o .linToDb outfile logfile s

/-- Embeds `_ls_mask`. -/
def _ls_mask (o : Oracle) (outfile logfile : String) (s : RunState) :
    Nat × RunState :=
  run_command o .lsMask outfile logfile s

/-- Embeds `_coreg2`: back-geocoding co-registration of master and slave. -/
def _coreg2 (o : Oracle) (outfile logfile : String) (s : RunState) :
    Nat × RunState :=
  run_command o .coreg outfile logfile s

/-- Embeds `_coherence`: coherence estimation over the configured bands. -/
def _coherence (o : Oracle) (outfile logfile : String) (s : RunState) :
    Nat × RunState :=
  run_command o .coherenceEst outfile logfile s

/-- Embeds `_terrain_correction`; `tag` identifies which of the three
terrain-correction invocation sites is running (decomposition, backscatter
or coherence product). -/
def _terrain_correction (o : Oracle) (tag : StageTag)
    (outfile logfile : String) (s : RunState) : Nat × RunState :=
  run_command o tag outfile logfile s

/-- Outcome of `burst_to_ard`: a normal `return return_code`, or process
termination through `sys.exit` inside `_calibration`. -/
inductive Outcome where
  | ret (code : Nat) (s : RunState)
  | procExit (code : Nat) (s : RunState)
  deriving DecidableEq

/-- The final on-disk state carried by an outcome. -/
def Outcome.state : Outcome → RunState
  | .ret _ s => s
  | .procExit _ s => s

/-- The numeric result carried by an outcome. -/
def Outcome.code : Outcome → Nat
  | .ret c _ => c
  | .procExit c _ => c

/-- Whether the outcome is a normal return of `burst_to_ard`. -/
def Outcome.isRet : Outcome → Bool
  | .ret _ _ => true
  | .procExit _ _ => false

/-- Control flow between the sequential sections of `burst_to_ard`: either
the function already returned (or the process exited), or execution
continues with the current value of the shared `return_code` variable. -/
inductive Flow where
  | cont (rc : Nat) (s : RunState)
  | stop (out : Outcome)
  deriving DecidableEq

/-- Sequencing: code after a section runs only when the section did not
return. -/
def Flow.step (f : Flow) (g : Nat → RunState → Flow) : Flow :=
  match f with
  | .cont rc s => g rc s
  | .stop out => .stop out

/-- Final sequencing into the function's last statements. -/
def Flow.finish (f : Flow) (g : Nat → RunState → Outcome) : Outcome :=
  match f with
  | .cont rc s => g rc s
  | .stop out => out

/-- The state carried by a flow. -/
def Flow.state : Flow → RunState
  | .cont _ s => s
  | .stop out => out.state

/-- A flow stopped as a failed run returning `c` with the temp directory
purged (the shape of every early `return` in `burst_to_ard`). -/
def Flow.failsWith : Flow → Nat → Prop
  | .stop (.ret c' s), c => c' = c ∧ s.temp = ∅
  | .cont _ _, _ => False
  | .stop (.procExit _ _), _ => False

instance : (f : Flow) → (c : Nat) → Decidable (f.failsWith c)
  | .stop (.ret c' s), c => inferInstanceAs (Decidable (c' = c ∧ s.temp = ∅))
  | .cont _ _, _ => isFalse id
  | .stop (.procExit _ _), _ => isFalse id

/-- Master-import section (lines 636-645): the import stage is skipped when
its output artifact already exists; on a nonzero exit code the temp
directory is purged and the code is returned. -/
def import_block (o : Oracle) (mId : String) (s : RunState) : Flow :=
  if (mId ++ "_import") ∈ s.temp then .cont 0 s
  else
    let r := _import o .importMaster (mId ++ "_import")
      (mId ++ "_import.err_log") s
    if r.1 ≠ 0 then .stop (.ret r.1 (remove_folder_content_temp r.2))
    else .cont r.1 r.2

/-- H-A-Alpha section (lines 647-678): decomposition, then terrain
correction whose exit code is immediately overwritten by the dimap check,
then move to the output directory and deletion of the decomposition
artifact. -/
def haa_block (o : Oracle) (ard : Ard) (mId : String) (rc : Nat)
    (s : RunState) : Flow :=
  if ard.h_a_alpha then
    let out_haa := mId ++ "_h"
    let r1 := _ha_alpha o out_haa (mId ++ "_haa.err_log") s
    if r1.1 ≠ 0 then .stop (.ret r1.1 (remove_folder_content_temp r1.2))
    else
      let out_htc := mId ++ "_pol"
      let r2 := _terrain_correction o .haaTc out_htc
        (mId ++ "_haa_tc.err_log") r1.2
      let r3 := check_out_dimap o out_htc true r2.2
      if r3.1 ≠ 0 then .stop (.ret r3.1 (remove_folder_content_temp r3.2))
      else
        .cont r3.1 (delete_dimap out_haa (move_dimap out_htc r3.2))
  else .cont rc s

/-- Calibration section (lines 681-687): a `sys.exit(121)` inside
`_calibration` terminates the process; a nonzero engine exit code purges
temp and returns. -/
def cal_block (o : Oracle) (ard : Ard) (mId : String) (s : RunState) :
    Flow :=
  match _calibration o (mId ++ "_cal") (mId ++ "_cal.err_log")
      ard.product_type s with
  | .exited c s1 => .stop (.procExit c s1)
  | .returned c s1 =>
    if c ≠ 0 then .stop (.ret c (remove_folder_content_temp s1))
    else .cont c s1

/-- Speckle-filter section (lines 694-709): optional; on success the
calibrated artifact is deleted and replaced by the filtered one. -/
def speckle_block (o : Oracle) (ard : Ard) (mId cur : String) (rc : Nat)
    (s : RunState) : Flow :=
  if ard.remove_speckle then
    let spk := mId ++ "_speckle_import"
    let r := _speckle_filter o spk (mId ++ "_speckle.err_log") s
    if r.1 ≠ 0 then .stop (.ret r.1 (remove_folder_content_temp r.2))
    else .cont r.1 (delete_dimap cur r.2)
  else .cont rc s

/-- Terrain-flattening section (lines 711-727): runs only when the product
type is `RTC`; on success the predecessor artifact is deleted. -/
def rtc_block (o : Oracle) (ard : Ard) (mId cur : String) (rc : Nat)
    (s : RunState) : Flow :=
  if ard.product_type = "RTC" then
    let out_rtc := mId ++ "_rtc"
    let r := _terrain_flattening o out_rtc (mId ++ "_rtc.err_log") s
    if r.1 ≠ 0 then .stop (.ret r.1 (remove_folder_content_temp r.2))
    else .cont r.1 (delete_dimap cur r.2)
  else .cont rc s

/-- Linear-to-dB section (lines 729-740): optional; on success the
predecessor artifact is deleted. -/
def db_block (o : Oracle) (ard : Ard) (mId cur : String) (rc : Nat)
    (s : RunState) : Flow :=
  if ard.to_db then
    let out_db := mId ++ "_cal_db"
    let r := _linear_to_db o out_db (mId ++ "_cal_db.err_log") s
    if r.1 ≠ 0 then .stop (.ret r.1 (remove_folder_content_temp r.2))
    else .cont r.1 (delete_dimap cur r.2)
  else .cont rc s

/-- Backscatter terrain-correction section (lines 742-755): the terrain
correction's exit code is immediately overwritten by the dimap check; on a
passing check the backscatter product is moved to the output directory. -/
def bs_tc_block (o : Oracle) (mId : String) (s : RunState) : Flow :=
  let out_tc := mId ++ "_bs"
  let r := _terrain_correction o .bsTc out_tc (mId ++ "_bs_tc.err_log") s
  let r2 := check_out_dimap o out_tc true r.2
  if r2.1 ≠ 0 then .stop (.ret r2.1 (remove_folder_content_temp r2.2))
  else .cont r2.1 (move_dimap out_tc r2.2)

/-- Layover/shadow-mask section (lines 757-774): optional; the mask is
checked without statistics and moved to the output directory. -/
def ls_block (o : Oracle) (ard : Ard) (mId cur : String) (rc : Nat)
    (s : RunState) : Flow :=
  if ard.create_ls_mask then
    let out_ls := mId ++ "_LS"
    let r := _ls_mask o out_ls (mId ++ "_LS.err_log") s
    if r.1 ≠ 0 then .stop (.ret r.1 (remove_folder_content_temp r.2))
    else
      let r2 := check_out_dimap o out_ls false r.2
      if r2.1 ≠ 0 then .stop (.ret r2.1 (remove_folder_content_temp r2.2))
      else .cont r2.1 (move_dimap out_ls r2.2)
  else .cont rc s

/-- Second half of the coherence section (lines 813-843): coherence
estimation and deburst, deletion of the coregistration artifact, terrain
correction whose exit code is overwritten by the dimap check, move to the
output directory, deletion of the pre-geocoding coherence artifact. -/
def coh_tail (o : Oracle) (mId : String) (s : RunState) : Flow :=
  let out_coh := mId ++ "_c"
  let r3 := _coherence o out_coh (mId ++ "_coh.err_log") s
  if r3.1 ≠ 0 then .stop (.ret r3.1 (remove_folder_content_temp r3.2))
  else
    let s5 := delete_dimap (mId ++ "_coreg") r3.2
    let out_tc := mId ++ "_coh"
    let r4 := _terrain_correction o .cohTc out_tc
      (mId ++ "_coh_tc.err_log") s5
    let r5 := check_out_dimap o out_tc true r4.2
    if r5.1 ≠ 0 then .stop (.ret r5.1 (remove_folder_content_temp r5.2))
    else
      .cont r5.1 (delete_dimap out_coh (move_dimap out_tc r5.2))

/-- Coherence section (lines 779-843): slave import (no resumability
check), co-registration, deferred deletion of the master import (and of the
slave import only when allowed), then the coherence tail. -/
def coh_block (o : Oracle) (ard : Ard) (mId sId : String)
    (coherence remove_slave_import : Bool) (rc : Nat) (s : RunState) :
    Flow :=
  if coherence then
    let slave_import := sId ++ "_import"
    let r := _import o .importSlave slave_import (sId ++ "_import.err_log") s
    if r.1 ≠ 0 then .stop (.ret r.1 (remove_folder_content_temp r.2))
    else
      let out_coreg := mId ++ "_coreg"
      let r2 := _coreg2 o out_coreg (mId ++ "_coreg.err_log") r.2
      if r2.1 ≠ 0 then .stop (.ret r2.1 (remove_folder_content_temp r2.2))
      else
        let s3 := delete_dimap (mId ++ "_import") r2.2
        let s4 := if remove_slave_import then delete_dimap slave_import s3
                  else s3
        coh_tail o mId s4
  else .cont rc s

/-- Final statements (lines 845-854): when the last-assigned return code is
zero, the completion marker `.processed` is written into the output
directory; otherwise both directories are purged.  The (last-assigned)
return code is returned either way. -/
def final_block (rc : Nat) (s : RunState) : Outcome :=
  if rc = 0 then
    .ret rc { s with marker := true, trace := s.trace ++ [Event.writeMarker] }
  else
    .ret rc (remove_folder_content_out (remove_folder_content_temp s))

/-- The pipeline sections following the master import, composed in source
order, threading the shared `return_code` variable and the name of the
current backscatter artifact (`out_cal` in the source, reassigned by the
speckle, terrain-flattening and dB sections). -/
def rest_flow (o : Oracle) (ard : Ard) (mId sId : String)
    (coherence remove_slave_import : Bool) (rc : Nat) (s : RunState) :
    Flow :=
  let n0 := mId ++ "_cal"
  let n1 := if ard.remove_speckle then mId ++ "_speckle_import" else n0
  let n2 := if ard.product_type = "RTC" then mId ++ "_rtc" else n1
  let n3 := if ard.to_db then mId ++ "_cal_db" else n2
  Flow.step (haa_block o ard mId rc s) (fun _rc1 s1 =>
  Flow.step (cal_block o ard mId s1) (fun rc2 s2 =>
  let s2b := if coherence then s2 else delete_dimap (mId ++ "_import") s2
  Flow.step (speckle_block o ard mId n0 rc2 s2b) (fun rc3 s3 =>
  Flow.step (rtc_block o ard mId n1 rc3 s3) (fun rc4 s4 =>
  Flow.step (db_block o ard mId n2 rc4 s4) (fun _rc5 s5 =>
  Flow.step (bs_tc_block o mId s5) (fun rc6 s6 =>
  Flow.step (ls_block o ard mId n3 rc6 s6) (fun rc7 s7 =>
  let s7b := delete_dimap n3 s7
  coh_block o ard mId sId coherence remove_slave_import rc7 s7b)))))))

/-- The whole stage pipeline as a flow: master import followed by the rest
of the sections. -/
def pipeline_flow (o : Oracle) (ard : Ard) (mId sId : String)
    (coherence remove_slave_import : Bool) (s : RunState) : Flow :=
  Flow.step (import_block o mId s)
    (rest_flow o ard mId sId coherence remove_slave_import)

/-- Embeds `burst_to_ard` (lines 601-854): the stage pipeline followed by
the final marker-or-purge statements. -/
def burst_to_ard (o : Oracle) (ard : Ard) (mId sId : String)
    (coherence remove_slave_import : Bool) (s : RunState) : Outcome :=
  Flow.finish (pipeline_flow o ard mId sId coherence remove_slave_import s)
    final_block

/-- The log file each invocation site writes, as named in the source
(`'{}_<stage>.err_log'.format(burst_id)`). -/
def stage_log (mId sId : String) : StageTag → String
  | .importMaster => mId ++ "_import.err_log"
  | .haAlpha => mId ++ "_haa.err_log"
  | .haaTc => mId ++ "_haa_tc.err_log"
  | .calibration => mId ++ "_cal.err_log"
  | .speckle => mId ++ "_speckle.err_log"
  | .terrainFlat => mId ++ "_rtc.err_log"
  | .linToDb => mId ++ "_cal_db.err_log"
  | .bsTc => mId ++ "_bs_tc.err_log"
  | .lsMask => mId ++ "_LS.err_log"
  | .importSlave => sId ++ "_import.err_log"
  | .coreg => mId ++ "_coreg.err_log"
  | .coherenceEst => mId ++ "_coh.err_log"
  | .cohTc => mId ++ "_coh_tc.err_log"

/-- The sequence of engine invocations recorded in a trace. -/
def stageSeq (t : List Event) : List StageTag :=
  t.filterMap (fun e => match e with
    | .invoke tag _ => some tag
    | _ => none)

/-- The stage sequence a fully successful run is expected to produce, as a
function of the configuration flags. -/
def expected_stage_seq (ard : Ard) (coherence : Bool) : List StageTag :=
  [StageTag.importMaster]
  ++ (if ard.h_a_alpha then [StageTag.haAlpha, StageTag.haaTc] else [])
  ++ [StageTag.calibration]
  ++ (if ard.remove_speckle then [StageTag.speckle] else [])
  ++ (if ard.product_type = "RTC" then [StageTag.terrainFlat] else [])
  ++ (if ard.to_db then [StageTag.linToDb] else [])
  ++ [StageTag.bsTc]
  ++ (if ard.create_ls_mask then [StageTag.lsMask] else [])
  ++ (if coherence then
        [StageTag.importSlave, StageTag.coreg, StageTag.coherenceEst,
         StageTag.cohTc]
      else [])

/-! ### Basic simp support -/

@[simp] theorem Flow.state_cont (rc : Nat) (s : RunState) :
    (Flow.cont rc s).state = s := rfl

@[simp] theorem Flow.state_stop (out : Outcome) :
    (Flow.stop out).state = out.state := rfl

@[simp] theorem Outcome.state_ret (c : Nat) (s : RunState) :
    (Outcome.ret c s).state = s := rfl

@[simp] theorem Outcome.state_procExit (c : Nat) (s : RunState) :
    (Outcome.procExit c s).state = s := rfl

@[simp] theorem Outcome.code_ret (c : Nat) (s : RunState) :
    (Outcome.ret c s).code = c := rfl

@[simp] theorem Outcome.code_procExit (c : Nat) (s : RunState) :
    (Outcome.procExit c s).code = c := rfl

@[simp] theorem Outcome.isRet_ret (c : Nat) (s : RunState) :
    (Outcome.ret c s).isRet = true := rfl

@[simp] theorem Outcome.isRet_procExit (c : Nat) (s : RunState) :
    (Outcome.procExit c s).isRet = false := rfl

@[simp] theorem Flow.step_cont (rc : Nat) (s : RunState)
    (g : Nat → RunState → Flow) : (Flow.cont rc s).step g = g rc s := rfl

@[simp] theorem Flow.step_stop (out : Outcome)
    (g : Nat → RunState → Flow) : (Flow.stop out).step g = .stop out := rfl

@[simp] theorem Flow.finish_cont (rc : Nat) (s : RunState)
    (g : Nat → RunState → Outcome) : (Flow.cont rc s).finish g = g rc s := rfl

@[simp] theorem Flow.finish_stop (out : Outcome)
    (g : Nat → RunState → Outcome) : (Flow.stop out).finish g = out := rfl

@[simp] theorem run_command_fst (o : Oracle) (tag : StageTag)
    (n l : String) (s : RunState) :
    (run_command o tag n l s).1 = o.exitCode tag := by
  unfold run_command; dsimp only; split <;> rfl

@[simp] theorem run_command_trace (o : Oracle) (tag : StageTag)
    (n l : String) (s : RunState) :
    (run_command o tag n l s).2.trace = s.trace ++ [Event.invoke tag l] := by
  unfold run_command; dsimp only; split <;> rfl

@[simp] theorem run_command_outLogs (o : Oracle) (tag : StageTag)
    (n l : String) (s : RunState) :
    (run_command o tag n l s).2.outLogs = insert l s.outLogs := by
  unfold run_command; dsimp only; split <;> rfl

@[simp] theorem run_command_marker (o : Oracle) (tag : StageTag)
    (n l : String) (s : RunState) :
    (run_command o tag n l s).2.marker = s.marker := by
  unfold run_command; dsimp only; split <;> rfl

@[simp] theorem run_command_outArt (o : Oracle) (tag : StageTag)
    (n l : String) (s : RunState) :
    (run_command o tag n l s).2.outArt = s.outArt := by
  unfold run_command; dsimp only; split <;> rfl

@[simp] theorem run_command_temp (o : Oracle) (tag : StageTag)
    (n l : String) (s : RunState) :
    (run_command o tag n l s).2.temp =
      if o.exitCode tag = 0 then insert n s.temp else s.temp := by
  unfold run_command; dsimp only; split <;> simp_all

@[simp] theorem check_out_dimap_trace (o : Oracle) (n : String) (ts : Bool)
    (s : RunState) :
    (check_out_dimap o n ts s).2.trace =
      s.trace ++ [Event.checkDimap n] := rfl

@[simp] theorem check_out_dimap_temp (o : Oracle) (n : String) (ts : Bool)
    (s : RunState) : (check_out_dimap o n ts s).2.temp = s.temp := rfl

@[simp] theorem check_out_dimap_outArt (o : Oracle) (n : String) (ts : Bool)
    (s : RunState) : (check_out_dimap o n ts s).2.outArt = s.outArt := rfl

@[simp] theorem check_out_dimap_outLogs (o : Oracle) (n : String) (ts : Bool)
    (s : RunState) : (check_out_dimap o n ts s).2.outLogs = s.outLogs := rfl

@[simp] theorem check_out_dimap_marker (o : Oracle) (n : String) (ts : Bool)
    (s : RunState) : (check_out_dimap o n ts s).2.marker = s.marker := rfl

@[simp] theorem check_out_dimap_fst (o : Oracle) (n : String) (ts : Bool)
    (s : RunState) :
    (check_out_dimap o n ts s).1 =
      if decide (n ∈ s.temp) && (!ts || o.statsOk n) then 0 else 1 := rfl

/-! ### A per-section contract

`BlockOk mId sId lb s f` relates the state `s` at entry of a pipeline
section to the flow `f` it produced: the trace grows only by events from
`lb` (purges of the temp directory may additionally appear, but only when
the section returned early as a failed run), the marker is untouched, the
output-directory logs only grow, every recorded invocation has its log file
(named by burst id and stage) present in the output directory, every early
return carries a nonzero code and an emptied temp directory, and a process
exit carries code 121. -/
def BlockOk (mId sId : String) (lb : List Event) (s : RunState) (f : Flow) :
    Prop :=
  (∀ e ∈ f.state.trace,
      e ∈ s.trace ∨ e ∈ lb ∨
      (e = Event.purgeTemp ∧ ∃ c s1, f = .stop (.ret c s1))) ∧
  f.state.marker = s.marker ∧
  (∀ l ∈ s.outLogs, l ∈ f.state.outLogs) ∧
  (∀ tag l, Event.invoke tag l ∈ f.state.trace →
      Event.invoke tag l ∈ s.trace ∨
      (l = stage_log mId sId tag ∧ l ∈ f.state.outLogs)) ∧
  (∀ c s1, f = .stop (.ret c s1) → c ≠ 0 ∧ s1.temp = ∅) ∧
  (∀ c s1, f = .stop (.procExit c s1) → c = 121)

theorem BlockOk.mono {mId sId : String} {lb lb' : List Event}
    {s : RunState} {f : Flow} (h : BlockOk mId sId lb s f)
    (hsub : ∀ e ∈ lb, e ∈ lb') : BlockOk mId sId lb' s f := by
  obtain ⟨h1, h2, h3, h4, h5, h6⟩ := h
  refine ⟨fun e he => ?_, h2, h3, h4, h5, h6⟩
  rcases h1 e he with h | h | h
  · exact Or.inl h
  · exact Or.inr (Or.inl (hsub e h))
  · exact Or.inr (Or.inr h)

/-- Sequential composition preserves the contract. -/
theorem BlockOk.step {mId sId : String} {lb1 lb2 : List Event}
    {s : RunState} {f : Flow} {g : Nat → RunState → Flow}
    (h1 : BlockOk mId sId lb1 s f)
    (h2 : ∀ rc s1, f = .cont rc s1 → BlockOk mId sId lb2 s1 (g rc s1)) :
    BlockOk mId sId (lb1 ++ lb2) s (f.step g) := by
  match f with
  | .stop out =>
    simp only [Flow.step_stop]
    exact (h1.mono (fun e he => List.mem_append_left _ he))
  | .cont rc s1 =>
    obtain ⟨a1, a2, a3, a4, a5, a6⟩ := h1
    obtain ⟨b1, b2, b3, b4, b5, b6⟩ := h2 rc s1 rfl
    simp only [Flow.step_cont]
    refine ⟨fun e he => ?_, by rw [b2]; exact a2, fun l hl => b3 l (a3 l hl),
      fun tag l hl => ?_, b5, b6⟩
    · rcases b1 e he with h | h | h
      · rcases a1 e h with h' | h' | h'
        · exact Or.inl h'
        · exact Or.inr (Or.inl (List.mem_append_left _ h'))
        · exact absurd h'.2 (by simp)
      · exact Or.inr (Or.inl (List.mem_append_right _ h))
      · exact Or.inr (Or.inr h)
    · rcases b4 tag l hl with h | h
      · rcases a4 tag l h with h' | h'
        · exact Or.inl h'
        · exact Or.inr ⟨h'.1, b3 l h'.2⟩
      · exact Or.inr h

/-- Prefixing a section with an artifact deletion (the bare
`h.delete_dimap` statements between sections) widens the contract by the
corresponding event. -/
theorem BlockOk.pre_delete {mId sId : String} {lb : List Event} {n : String}
    {s : RunState} {f : Flow}
    (h : BlockOk mId sId lb (delete_dimap n s) f) :
    BlockOk mId sId (Event.deleteArt n :: lb) s f := by
  obtain ⟨h1, h2, h3, h4, h5, h6⟩ := h
  refine ⟨fun e he => ?_, by simpa [delete_dimap] using h2,
    fun l hl => h3 l (by simp [delete_dimap, hl]), fun tag l hl => ?_,
    h5, h6⟩
  · rcases h1 e he with h' | h' | h'
    · rcases (by simpa [delete_dimap] using h' :
        e ∈ s.trace ∨ e = Event.deleteArt n) with h'' | h''
      · exact Or.inl h''
      · exact Or.inr (Or.inl (by simp [h'']))
    · exact Or.inr (Or.inl (List.mem_cons_of_mem _ h'))
    · exact Or.inr (Or.inr h')
  · rcases h4 tag l hl with h' | h'
    · rcases (by simpa [delete_dimap] using h' :
        Event.invoke tag l ∈ s.trace ∨ Event.invoke tag l = .deleteArt n)
        with h'' | h''
      · exact Or.inl h''
      · exact absurd h'' (by simp)
    · exact Or.inr h'

/-- Contract packaging for a section that continues. -/
theorem BlockOk.cont_of {mId sId : String} {lb : List Event} {s s' : RunState}
    {rc : Nat}
    (h_tr : ∀ e ∈ s'.trace, e ∈ s.trace ∨ e ∈ lb)
    (hm : s'.marker = s.marker)
    (hlog : ∀ l ∈ s.outLogs, l ∈ s'.outLogs)
    (hinv : ∀ tag l, Event.invoke tag l ∈ s'.trace →
      Event.invoke tag l ∈ s.trace ∨
      (l = stage_log mId sId tag ∧ l ∈ s'.outLogs)) :
    BlockOk mId sId lb s (.cont rc s') := by
  refine ⟨fun e he => ?_, hm, hlog, fun tag l hl => hinv tag l hl,
    by simp, by simp⟩
  rcases h_tr e he with h | h
  · exact Or.inl h
  · exact Or.inr (Or.inl h)

/-- Contract packaging for a section that does nothing. -/
theorem BlockOk.skip {mId sId : String} {lb : List Event} {s : RunState}
    {rc : Nat} : BlockOk mId sId lb s (.cont rc s) :=
  BlockOk.cont_of (fun _ he => Or.inl he) rfl (fun _ hl => hl)
    (fun _ _ hl => Or.inl hl)

/-- Contract packaging for the early-return shape shared by every stage:
run the engine, and on a nonzero exit code purge temp and return it. -/
theorem BlockOk.run_fail {mId sId : String} {o : Oracle} {tag : StageTag}
    {n l : String} {s : RunState}
    (hrc : o.exitCode tag ≠ 0) (hl : l = stage_log mId sId tag) :
    BlockOk mId sId [Event.invoke tag l] s
      (.stop (.ret (run_command o tag n l s).1
        (remove_folder_content_temp (run_command o tag n l s).2))) := by
  refine ⟨fun e he => ?_, by simp [remove_folder_content_temp],
    fun l' hl' => by simp [remove_folder_content_temp, hl'],
    fun tag' l' hl' => ?_, fun c s1 h => ?_, by simp⟩
  · simp only [Flow.state_stop, Outcome.state_ret, remove_folder_content_temp,
      run_command_trace, List.append_assoc, List.mem_append,
      List.mem_singleton] at he
    rcases he with h | h | h
    · exact Or.inl h
    · exact Or.inr (Or.inl (by simp [h]))
    · exact Or.inr (Or.inr ⟨h, _, _, rfl⟩)
  · simp only [Flow.state_stop, Outcome.state_ret, remove_folder_content_temp,
      run_command_trace, List.append_assoc, List.mem_append,
      List.mem_singleton] at hl'
    rcases hl' with h | h | h
    · exact Or.inl h
    · obtain ⟨rfl, rfl⟩ : tag' = tag ∧ l' = l := by
        simpa [Event.invoke.injEq] using h
      exact Or.inr ⟨hl, by simp [remove_folder_content_temp]⟩
    · exact absurd h (by simp)
  · simp only [Flow.stop.injEq, Outcome.ret.injEq] at h
    obtain ⟨hc, hs⟩ := h
    subst hc hs
    exact ⟨by simpa using hrc, by simp [remove_folder_content_temp]⟩

/-- Contract packaging for a section that returns early as a failed run. -/
theorem BlockOk.stop_ret_of {mId sId : String} {lb : List Event}
    {s s' : RunState} {c : Nat}
    (h_tr : ∀ e ∈ s'.trace, e ∈ s.trace ∨ e ∈ lb ∨ e = Event.purgeTemp)
    (hm : s'.marker = s.marker)
    (hlog : ∀ l ∈ s.outLogs, l ∈ s'.outLogs)
    (hinv : ∀ tag l, Event.invoke tag l ∈ s'.trace →
      Event.invoke tag l ∈ s.trace ∨
      (l = stage_log mId sId tag ∧ l ∈ s'.outLogs))
    (hc : c ≠ 0) (ht : s'.temp = ∅) :
    BlockOk mId sId lb s (.stop (.ret c s')) := by
  refine ⟨fun e he => ?_, hm, hlog, fun tag l hl => hinv tag l hl,
    fun c1 s1 h => ?_, by simp⟩
  · rcases h_tr e he with h | h | h
    · exact Or.inl h
    · exact Or.inr (Or.inl h)
    · exact Or.inr (Or.inr ⟨h, c, s', rfl⟩)
  · simp only [Flow.stop.injEq, Outcome.ret.injEq] at h
    obtain ⟨hc', hs⟩ := h
    subst hc' hs
    exact ⟨hc, ht⟩

/-! ### Per-section contract lemmas -/

theorem import_block_ok (o : Oracle) (mId sId : String) (s : RunState) :
    BlockOk mId sId
      [Event.invoke .importMaster (mId ++ "_import.err_log")] s
      (import_block o mId s) := by
  unfold import_block _import
  split
  · exact BlockOk.skip
  · dsimp only
    split
    case isTrue h => exact BlockOk.run_fail (by simpa using h) (by simp [stage_log])
    case isFalse h =>
      refine BlockOk.cont_of ?_ (by simp) (fun l hl => by simp [hl]) ?_
      · intro e he
        simp only [run_command_trace, List.mem_append, List.mem_singleton] at he
        rcases he with h' | h'
        · exact Or.inl h'
        · exact Or.inr (by simp [h'])
      · intro tag l hl
        simp only [run_command_trace, List.mem_append, List.mem_singleton] at hl
        rcases hl with h' | h'
        · exact Or.inl h'
        · obtain ⟨rfl, rfl⟩ : tag = .importMaster ∧
              l = mId ++ "_import.err_log" := by simpa using h'
          exact Or.inr ⟨by simp [stage_log], by simp⟩

theorem haa_block_ok (o : Oracle) (ard : Ard) (mId sId : String) (rc : Nat)
    (s : RunState) :
    BlockOk mId sId
      [Event.invoke .haAlpha (mId ++ "_haa.err_log"),
       Event.invoke .haaTc (mId ++ "_haa_tc.err_log"),
       Event.checkDimap (mId ++ "_pol"),
       Event.moveOut (mId ++ "_pol"),
       Event.deleteArt (mId ++ "_h")] s
      (haa_block o ard mId rc s) := by
  unfold haa_block _ha_alpha _terrain_correction
  split
  case isFalse => exact BlockOk.skip
  case isTrue =>
    dsimp only
    split
    case isTrue h =>
      exact (BlockOk.run_fail (by simpa using h) (by simp [stage_log])).mono
        (by intro e he; simp only [List.mem_singleton] at he; simp [he])
    case isFalse h =>
      split
      case isTrue h2 =>
        refine BlockOk.stop_ret_of ?_ (by simp [remove_folder_content_temp])
          (fun l hl => by simp [remove_folder_content_temp, hl]) ?_
          (by simpa using h2) (by simp [remove_folder_content_temp])
        · intro e he
          simp only [remove_folder_content_temp, Flow.state_stop,
            Outcome.state_ret, check_out_dimap_trace, run_command_trace,
            List.append_assoc, List.mem_append, List.mem_singleton] at he
          rcases he with h' | h' | h' | h' | h'
          · exact Or.inl h'
          · exact Or.inr (Or.inl (by simp [h']))
          · exact Or.inr (Or.inl (by simp [h']))
          · exact Or.inr (Or.inl (by simp [h']))
          · exact Or.inr (Or.inr h')
        · intro tag l hl
          simp only [remove_folder_content_temp, Flow.state_stop,
            Outcome.state_ret, check_out_dimap_trace, run_command_trace,
            List.append_assoc, List.mem_append, List.mem_singleton] at hl
          rcases hl with h' | h' | h' | h'
          · exact Or.inl h'
          · obtain ⟨rfl, rfl⟩ : tag = .haAlpha ∧ l = mId ++ "_haa.err_log" :=
              by simpa using h'
            exact Or.inr ⟨by simp [stage_log], by
              simp [remove_folder_content_temp]⟩
          · obtain ⟨rfl, rfl⟩ : tag = .haaTc ∧ l = mId ++ "_haa_tc.err_log" :=
              by simpa using h'
            exact Or.inr ⟨by simp [stage_log], by
              simp [remove_folder_content_temp]⟩
          · exact absurd h' (by simp)
      case isFalse h2 =>
        refine BlockOk.cont_of ?_ (by simp [delete_dimap, move_dimap])
          (fun l hl => by simp [delete_dimap, move_dimap, hl]) ?_
        · intro e he
          simp only [delete_dimap, move_dimap, check_out_dimap_trace,
            run_command_trace, List.append_assoc, List.mem_append,
            List.mem_singleton] at he
          rcases he with h' | h' | h' | h' | h'
          · exact Or.inl h'
          all_goals exact Or.inr (by simp [h'])
        · intro tag l hl
          simp only [delete_dimap, move_dimap, check_out_dimap_trace,
            run_command_trace, List.append_assoc, List.mem_append,
            List.mem_singleton] at hl
          rcases hl with h' | h' | h' | h' | h'
          · exact Or.inl h'
          · obtain ⟨rfl, rfl⟩ : tag = .haAlpha ∧ l = mId ++ "_haa.err_log" :=
              by simpa using h'
            exact Or.inr ⟨by simp [stage_log], by
              simp [delete_dimap, move_dimap]⟩
          · obtain ⟨rfl, rfl⟩ : tag = .haaTc ∧ l = mId ++ "_haa_tc.err_log" :=
              by simpa using h'
            exact Or.inr ⟨by simp [stage_log], by
              simp [delete_dimap, move_dimap]⟩
          all_goals exact absurd h' (by simp)

/-- Contract packaging for a stage that continues after deleting its
predecessor artifact (the speckle, terrain-flattening and dB sections). -/
theorem BlockOk.run_del_cont {mId sId : String} {o : Oracle} {tag : StageTag}
    {n l cur : String} {s : RunState} {rc : Nat}
    (hl : l = stage_log mId sId tag) :
    BlockOk mId sId [Event.invoke tag l, Event.deleteArt cur] s
      (.cont rc (delete_dimap cur (run_command o tag n l s).2)) := by
  refine BlockOk.cont_of ?_ (by simp [delete_dimap])
    (fun l' hl' => by simp [delete_dimap, hl']) ?_
  · intro e he
    simp only [delete_dimap, run_command_trace, List.append_assoc,
      List.mem_append, List.mem_singleton] at he
    rcases he with h' | h' | h'
    · exact Or.inl h'
    all_goals exact Or.inr (by simp [h'])
  · intro tag' l' hl'
    simp only [delete_dimap, run_command_trace, List.append_assoc,
      List.mem_append, List.mem_singleton] at hl'
    rcases hl' with h' | h' | h'
    · exact Or.inl h'
    · obtain ⟨rfl, rfl⟩ : tag' = tag ∧ l' = l := by simpa using h'
      exact Or.inr ⟨hl, by simp [delete_dimap]⟩
    · exact absurd h' (by simp)

/-- Contract packaging for the `sys.exit` case of the calibration section:
the state at entry is returned untouched. -/
theorem BlockOk.exit_unchanged {mId sId : String} {lb : List Event}
    {s : RunState} : BlockOk mId sId lb s (.stop (.procExit 121 s)) := by
  refine ⟨fun e he => Or.inl (by simpa using he), rfl, fun l hl => hl,
    fun tag l hl => Or.inl (by simpa using hl), fun c s1 h => ?_,
    fun c s1 h => ?_⟩
  · exact absurd h (by simp)
  · simp only [Flow.stop.injEq, Outcome.procExit.injEq] at h
    exact h.1.symm

theorem cal_block_ok (o : Oracle) (ard : Ard) (mId sId : String)
    (s : RunState) :
    BlockOk mId sId [Event.invoke .calibration (mId ++ "_cal.err_log")] s
      (cal_block o ard mId s) := by
  unfold cal_block _calibration
  rcases hg : calibration_graph ard.product_type with _ | g
  · exact BlockOk.exit_unchanged
  · dsimp only
    split
    case isTrue h =>
      exact BlockOk.run_fail (by simpa using h) (by simp [stage_log])
    case isFalse h =>
      refine BlockOk.cont_of ?_ (by simp) (fun l hl => by simp [hl]) ?_
      · intro e he
        simp only [run_command_trace, List.mem_append, List.mem_singleton]
          at he
        rcases he with h' | h'
        · exact Or.inl h'
        · exact Or.inr (by simp [h'])
      · intro tag l hl
        simp only [run_command_trace, List.mem_append, List.mem_singleton]
          at hl
        rcases hl with h' | h'
        · exact Or.inl h'
        · obtain ⟨rfl, rfl⟩ : tag = .calibration ∧
              l = mId ++ "_cal.err_log" := by simpa using h'
          exact Or.inr ⟨by simp [stage_log], by simp⟩

theorem speckle_block_ok (o : Oracle) (ard : Ard) (mId sId cur : String)
    (rc : Nat) (s : RunState) :
    BlockOk mId sId
      [Event.invoke .speckle (mId ++ "_speckle.err_log"),
       Event.deleteArt cur] s
      (speckle_block o ard mId cur rc s) := by
  unfold speckle_block _speckle_filter
  split
  case isFalse => exact BlockOk.skip
  case isTrue =>
    dsimp only
    split
    case isTrue h =>
      exact (BlockOk.run_fail (by simpa using h) (by simp [stage_log])).mono
        (by intro e he; simp only [List.mem_singleton] at he; simp [he])
    case isFalse h => exact BlockOk.run_del_cont (by simp [stage_log])

theorem rtc_block_ok (o : Oracle) (ard : Ard) (mId sId cur : String)
    (rc : Nat) (s : RunState) :
    BlockOk mId sId
      [Event.invoke .terrainFlat (mId ++ "_rtc.err_log"),
       Event.deleteArt cur] s
      (rtc_block o ard mId cur rc s) := by
  unfold rtc_block _terrain_flattening
  split
  case isFalse => exact BlockOk.skip
  case isTrue =>
    dsimp only
    split
    case isTrue h =>
      exact (BlockOk.run_fail (by simpa using h) (by simp [stage_log])).mono
        (by intro e he; simp only [List.mem_singleton] at he; simp [he])
    case isFalse h => exact BlockOk.run_del_cont (by simp [stage_log])

theorem db_block_ok (o : Oracle) (ard : Ard) (mId sId cur : String)
    (rc : Nat) (s : RunState) :
    BlockOk mId sId
      [Event.invoke .linToDb (mId ++ "_cal_db.err_log"),
       Event.deleteArt cur] s
      (db_block o ard mId cur rc s) := by
  unfold db_block _linear_to_db
  split
  case isFalse => exact BlockOk.skip
  case isTrue =>
    dsimp only
    split
    case isTrue h =>
      exact (BlockOk.run_fail (by simpa using h) (by simp [stage_log])).mono
        (by intro e he; simp only [List.mem_singleton] at he; simp [he])
    case isFalse h => exact BlockOk.run_del_cont (by simp [stage_log])

theorem bs_tc_block_ok (o : Oracle) (mId sId : String) (s : RunState) :
    BlockOk mId sId
      [Event.invoke .bsTc (mId ++ "_bs_tc.err_log"),
       Event.checkDimap (mId ++ "_bs"),
       Event.moveOut (mId ++ "_bs")] s
      (bs_tc_block o mId s) := by
  unfold bs_tc_block _terrain_correction
  dsimp only
  split
  case isTrue h =>
    refine BlockOk.stop_ret_of ?_ (by simp [remove_folder_content_temp])
      (fun l hl => by simp [remove_folder_content_temp, hl]) ?_
      (by simpa using h) (by simp [remove_folder_content_temp])
    · intro e he
      simp only [remove_folder_content_temp, Flow.state_stop,
        Outcome.state_ret, check_out_dimap_trace, run_command_trace,
        List.append_assoc, List.mem_append, List.mem_singleton] at he
      rcases he with h' | h' | h' | h'
      · exact Or.inl h'
      · exact Or.inr (Or.inl (by simp [h']))
      · exact Or.inr (Or.inl (by simp [h']))
      · exact Or.inr (Or.inr h')
    · intro tag l hl
      simp only [remove_folder_content_temp, Flow.state_stop,
        Outcome.state_ret, check_out_dimap_trace, run_command_trace,
        List.append_assoc, List.mem_append, List.mem_singleton] at hl
      rcases hl with h' | h' | h' | h'
      · exact Or.inl h'
      · obtain ⟨rfl, rfl⟩ : tag = .bsTc ∧ l = mId ++ "_bs_tc.err_log" := by
          simpa using h'
        exact Or.inr ⟨by simp [stage_log], by
          simp [remove_folder_content_temp]⟩
      all_goals exact absurd h' (by simp)
  case isFalse h =>
    refine BlockOk.cont_of ?_ (by simp [move_dimap])
      (fun l hl => by simp [move_dimap, hl]) ?_
    · intro e he
      simp only [move_dimap, check_out_dimap_trace, run_command_trace,
        List.append_assoc, List.mem_append, List.mem_singleton] at he
      rcases he with h' | h' | h' | h'
      · exact Or.inl h'
      all_goals exact Or.inr (by simp [h'])
    · intro tag l hl
      simp only [move_dimap, check_out_dimap_trace, run_command_trace,
        List.append_assoc, List.mem_append, List.mem_singleton] at hl
      rcases hl with h' | h' | h' | h'
      · exact Or.inl h'
      · obtain ⟨rfl, rfl⟩ : tag = .bsTc ∧ l = mId ++ "_bs_tc.err_log" := by
          simpa using h'
        exact Or.inr ⟨by simp [stage_log], by simp [move_dimap]⟩
      all_goals exact absurd h' (by simp)

theorem ls_block_ok (o : Oracle) (ard : Ard) (mId sId cur : String)
    (rc : Nat) (s : RunState) :
    BlockOk mId sId
      [Event.invoke .lsMask (mId ++ "_LS.err_log"),
       Event.checkDimap (mId ++ "_LS"),
       Event.moveOut (mId ++ "_LS")] s
      (ls_block o ard mId cur rc s) := by
  unfold ls_block _ls_mask
  split
  case isFalse => exact BlockOk.skip
  case isTrue =>
    dsimp only
    split
    case isTrue h =>
      exact (BlockOk.run_fail (by simpa using h) (by simp [stage_log])).mono
        (by intro e he; simp only [List.mem_singleton] at he; simp [he])
    case isFalse h =>
      split
      case isTrue h2 =>
        refine BlockOk.stop_ret_of ?_ (by simp [remove_folder_content_temp])
          (fun l hl => by simp [remove_folder_content_temp, hl]) ?_
          (by simpa using h2) (by simp [remove_folder_content_temp])
        · intro e he
          simp only [remove_folder_content_temp, Flow.state_stop,
            Outcome.state_ret, check_out_dimap_trace, run_command_trace,
            List.append_assoc, List.mem_append, List.mem_singleton] at he
          rcases he with h' | h' | h' | h'
          · exact Or.inl h'
          · exact Or.inr (Or.inl (by simp [h']))
          · exact Or.inr (Or.inl (by simp [h']))
          · exact Or.inr (Or.inr h')
        · intro tag l hl
          simp only [remove_folder_content_temp, Flow.state_stop,
            Outcome.state_ret, check_out_dimap_trace, run_command_trace,
            List.append_assoc, List.mem_append, List.mem_singleton] at hl
          rcases hl with h' | h' | h' | h'
          · exact Or.inl h'
          · obtain ⟨rfl, rfl⟩ : tag = .lsMask ∧ l = mId ++ "_LS.err_log" :=
              by simpa using h'
            exact Or.inr ⟨by simp [stage_log], by
              simp [remove_folder_content_temp]⟩
          all_goals exact absurd h' (by simp)
      case isFalse h2 =>
        refine BlockOk.cont_of ?_ (by simp [move_dimap])
          (fun l hl => by simp [move_dimap, hl]) ?_
        · intro e he
          simp only [move_dimap, check_out_dimap_trace, run_command_trace,
            List.append_assoc, List.mem_append, List.mem_singleton] at he
          rcases he with h' | h' | h' | h'
          · exact Or.inl h'
          all_goals exact Or.inr (by simp [h'])
        · intro tag l hl
          simp only [move_dimap, check_out_dimap_trace, run_command_trace,
            List.append_assoc, List.mem_append, List.mem_singleton] at hl
          rcases hl with h' | h' | h' | h'
          · exact Or.inl h'
          · obtain ⟨rfl, rfl⟩ : tag = .lsMask ∧ l = mId ++ "_LS.err_log" :=
              by simpa using h'
            exact Or.inr ⟨by simp [stage_log], by simp [move_dimap]⟩
          all_goals exact absurd h' (by simp)

@[simp] theorem ite_delete_trace (b : Bool) (n : String) (s : RunState) :
    (if b = true then delete_dimap n s else s).trace =
      s.trace ++ (if b = true then [Event.deleteArt n] else []) := by
  cases b <;> simp [delete_dimap]

@[simp] theorem ite_delete_marker (b : Bool) (n : String) (s : RunState) :
    (if b = true then delete_dimap n s else s).marker = s.marker := by
  cases b <;> simp [delete_dimap]

@[simp] theorem ite_delete_outLogs (b : Bool) (n : String) (s : RunState) :
    (if b = true then delete_dimap n s else s).outLogs = s.outLogs := by
  cases b <;> simp [delete_dimap]

@[simp] theorem ite_delete_outArt (b : Bool) (n : String) (s : RunState) :
    (if b = true then delete_dimap n s else s).outArt = s.outArt := by
  cases b <;> simp [delete_dimap]

theorem mem_ite_singleton {e x : Event} (b : Bool) :
    (e ∈ if b = true then [x] else []) ↔ (b = true ∧ e = x) := by
  cases b <;> simp

/-- Prefixing a section with an engine invocation widens the contract by
the corresponding invoke event. -/
theorem BlockOk.pre_run {mId sId : String} {o : Oracle} {tg : StageTag}
    {n lg : String} {lb : List Event} {s : RunState} {f : Flow}
    (hlg : lg = stage_log mId sId tg)
    (h : BlockOk mId sId lb (run_command o tg n lg s).2 f) :
    BlockOk mId sId (Event.invoke tg lg :: lb) s f := by
  obtain ⟨h1, h2, h3, h4, h5, h6⟩ := h
  refine ⟨fun e he => ?_, by simpa using h2,
    fun l' hl' => h3 l' (by simp [hl']), fun tag' l' hl' => ?_, h5, h6⟩
  · rcases h1 e he with h' | h' | h'
    · rcases (by simpa using h' :
        e ∈ s.trace ∨ e = Event.invoke tg lg) with h'' | h''
      · exact Or.inl h''
      · exact Or.inr (Or.inl (by simp [h'']))
    · exact Or.inr (Or.inl (List.mem_cons_of_mem _ h'))
    · exact Or.inr (Or.inr h')
  · rcases h4 tag' l' hl' with h' | h'
    · rcases (by simpa using h' :
        Event.invoke tag' l' ∈ s.trace ∨ (tag' = tg ∧ l' = lg))
        with h'' | h''
      · exact Or.inl h''
      · obtain ⟨he1, he2⟩ := h''
        refine Or.inr ⟨by rw [he2, hlg, he1], h3 l' (by simp [he2])⟩
    · exact Or.inr h'

/-- Prefixing with a conditional artifact deletion (the
`remove_slave_import` branch). -/
theorem BlockOk.pre_ite_delete {mId sId : String} {lb : List Event}
    {n : String} {b : Bool} {s : RunState} {f : Flow}
    (h : BlockOk mId sId lb (if b = true then delete_dimap n s else s) f) :
    BlockOk mId sId (Event.deleteArt n :: lb) s f := by
  cases b
  · simp only [Bool.false_eq_true, if_false] at h
    exact h.mono (fun e he => List.mem_cons_of_mem _ he)
  · simp only [if_true] at h
    exact h.pre_delete

theorem coh_tail_ok (o : Oracle) (mId sId : String) (s : RunState) :
    BlockOk mId sId
      [Event.invoke .coherenceEst (mId ++ "_coh.err_log"),
       Event.deleteArt (mId ++ "_coreg"),
       Event.invoke .cohTc (mId ++ "_coh_tc.err_log"),
       Event.checkDimap (mId ++ "_coh"),
       Event.moveOut (mId ++ "_coh"),
       Event.deleteArt (mId ++ "_c")] s
      (coh_tail o mId s) := by
  unfold coh_tail _coherence _terrain_correction
  dsimp only
  split
  case isTrue h =>
    exact (BlockOk.run_fail (by simpa using h) (by simp [stage_log])).mono
      (by intro e he; simp only [List.mem_singleton] at he; simp [he])
  case isFalse h =>
    split
    case isTrue h2 =>
      refine BlockOk.stop_ret_of ?_
        (by simp [remove_folder_content_temp, delete_dimap])
        (fun l hl => by simp [remove_folder_content_temp, delete_dimap, hl])
        ?_ (by simpa using h2) (by simp [remove_folder_content_temp])
      · intro e he
        simp only [remove_folder_content_temp, Flow.state_stop,
          Outcome.state_ret, run_command_trace, check_out_dimap_trace,
          delete_dimap, List.append_assoc, List.mem_append,
          List.mem_singleton] at he
        rcases he with h' | h' | h' | h' | h' | h'
        · exact Or.inl h'
        · exact Or.inr (Or.inl (by simp [h']))
        · exact Or.inr (Or.inl (by simp [h']))
        · exact Or.inr (Or.inl (by simp [h']))
        · exact Or.inr (Or.inl (by simp [h']))
        · exact Or.inr (Or.inr h')
      · intro tag l hl
        simp only [remove_folder_content_temp, Flow.state_stop,
          Outcome.state_ret, run_command_trace, check_out_dimap_trace,
          delete_dimap, List.append_assoc, List.mem_append,
          List.mem_singleton] at hl
        rcases hl with h' | h' | h' | h' | h' | h'
        · exact Or.inl h'
        · obtain ⟨rfl, rfl⟩ : tag = .coherenceEst ∧
              l = mId ++ "_coh.err_log" := by simpa using h'
          exact Or.inr ⟨by simp [stage_log], by
            simp [remove_folder_content_temp, delete_dimap]⟩
        · exact absurd h' (by simp)
        · obtain ⟨rfl, rfl⟩ : tag = .cohTc ∧
              l = mId ++ "_coh_tc.err_log" := by simpa using h'
          exact Or.inr ⟨by simp [stage_log], by
            simp [remove_folder_content_temp, delete_dimap]⟩
        all_goals exact absurd h' (by simp)
    case isFalse h2 =>
      refine BlockOk.cont_of ?_ (by simp [move_dimap, delete_dimap])
        (fun l hl => by simp [move_dimap, delete_dimap, hl]) ?_
      · intro e he
        simp only [move_dimap, delete_dimap, run_command_trace,
          check_out_dimap_trace, List.append_assoc, List.mem_append,
          List.mem_singleton] at he
        rcases he with h' | h' | h' | h' | h' | h' | h'
        · exact Or.inl h'
        all_goals exact Or.inr (by simp [h'])
      · intro tag l hl
        simp only [move_dimap, delete_dimap, run_command_trace,
          check_out_dimap_trace, List.append_assoc, List.mem_append,
          List.mem_singleton] at hl
        rcases hl with h' | h' | h' | h' | h' | h' | h'
        · exact Or.inl h'
        · obtain ⟨rfl, rfl⟩ : tag = .coherenceEst ∧
              l = mId ++ "_coh.err_log" := by simpa using h'
          exact Or.inr ⟨by simp [stage_log], by
            simp [move_dimap, delete_dimap]⟩
        · exact absurd h' (by simp)
        · obtain ⟨rfl, rfl⟩ : tag = .cohTc ∧
              l = mId ++ "_coh_tc.err_log" := by simpa using h'
          exact Or.inr ⟨by simp [stage_log], by
            simp [move_dimap, delete_dimap]⟩
        all_goals exact absurd h' (by simp)

theorem coh_block_ok (o : Oracle) (ard : Ard) (mId sId : String)
    (coherence remove_slave_import : Bool) (rc : Nat) (s : RunState) :
    BlockOk mId sId
      [Event.invoke .importSlave (sId ++ "_import.err_log"),
       Event.invoke .coreg (mId ++ "_coreg.err_log"),
       Event.deleteArt (mId ++ "_import"),
       Event.deleteArt (sId ++ "_import"),
       Event.invoke .coherenceEst (mId ++ "_coh.err_log"),
       Event.deleteArt (mId ++ "_coreg"),
       Event.invoke .cohTc (mId ++ "_coh_tc.err_log"),
       Event.checkDimap (mId ++ "_coh"),
       Event.moveOut (mId ++ "_coh"),
       Event.deleteArt (mId ++ "_c")] s
      (coh_block o ard mId sId coherence remove_slave_import rc s) := by
  unfold coh_block _import _coreg2
  split
  case isFalse => exact BlockOk.skip
  case isTrue =>
    dsimp only
    split
    case isTrue h =>
      exact (BlockOk.run_fail (by simpa using h) (by simp [stage_log])).mono
        (by intro e he; simp only [List.mem_singleton] at he; simp [he])
    case isFalse h =>
      split
      case isTrue h2 =>
        exact (BlockOk.pre_run (by simp [stage_log])
          (BlockOk.run_fail (by simpa using h2) (by simp [stage_log]))).mono
          (by intro e he; simp only [List.mem_cons, List.mem_singleton,
                List.not_mem_nil, or_false] at he
              rcases he with h' | h' <;> simp [h'])
      case isFalse h2 =>
        exact (BlockOk.pre_run (by simp [stage_log])
          (BlockOk.pre_run (by simp [stage_log])
            (BlockOk.pre_delete (BlockOk.pre_ite_delete
              (coh_tail_ok o mId sId _))))).mono
          (by intro e he
              simp only [List.mem_cons, List.not_mem_nil, or_false] at he
              rcases he with h'|h'|h'|h'|h'|h'|h'|h'|h'|h' <;> simp [h'])

/-! ### Conditional per-section event lists -/

theorem haa_block_ok' (o : Oracle) (ard : Ard) (mId sId : String) (rc : Nat)
    (s : RunState) :
    BlockOk mId sId
      (if ard.h_a_alpha then
        [Event.invoke .haAlpha (mId ++ "_haa.err_log"),
         Event.invoke .haaTc (mId ++ "_haa_tc.err_log"),
         Event.checkDimap (mId ++ "_pol"),
         Event.moveOut (mId ++ "_pol"),
         Event.deleteArt (mId ++ "_h")] else []) s
      (haa_block o ard mId rc s) := by
  by_cases hp : ard.h_a_alpha
  · rw [if_pos hp]; exact haa_block_ok o ard mId sId rc s
  · rw [if_neg hp]; unfold haa_block
    rw [if_neg (by simpa using hp)]; exact BlockOk.skip

theorem speckle_block_ok' (o : Oracle) (ard : Ard) (mId sId cur : String)
    (rc : Nat) (s : RunState) :
    BlockOk mId sId
      (if ard.remove_speckle then
        [Event.invoke .speckle (mId ++ "_speckle.err_log"),
         Event.deleteArt cur] else []) s
      (speckle_block o ard mId cur rc s) := by
  by_cases hp : ard.remove_speckle
  · rw [if_pos hp]; exact speckle_block_ok o ard mId sId cur rc s
  · rw [if_neg hp]; unfold speckle_block
    rw [if_neg (by simpa using hp)]; exact BlockOk.skip

theorem rtc_block_ok' (o : Oracle) (ard : Ard) (mId sId cur : String)
    (rc : Nat) (s : RunState) :
    BlockOk mId sId
      (if ard.product_type = "RTC" then
        [Event.invoke .terrainFlat (mId ++ "_rtc.err_log"),
         Event.deleteArt cur] else []) s
      (rtc_block o ard mId cur rc s) := by
  by_cases hp : ard.product_type = "RTC"
  · rw [if_pos hp]; exact rtc_block_ok o ard mId sId cur rc s
  · rw [if_neg hp]; unfold rtc_block
    rw [if_neg hp]; exact BlockOk.skip

theorem db_block_ok' (o : Oracle) (ard : Ard) (mId sId cur : String)
    (rc : Nat) (s : RunState) :
    BlockOk mId sId
      (if ard.to_db then
        [Event.invoke .linToDb (mId ++ "_cal_db.err_log"),
         Event.deleteArt cur] else []) s
      (db_block o ard mId cur rc s) := by
  by_cases hp : ard.to_db
  · rw [if_pos hp]; exact db_block_ok o ard mId sId cur rc s
  · rw [if_neg hp]; unfold db_block
    rw [if_neg (by simpa using hp)]; exact BlockOk.skip

theorem ls_block_ok' (o : Oracle) (ard : Ard) (mId sId cur : String)
    (rc : Nat) (s : RunState) :
    BlockOk mId sId
      (if ard.create_ls_mask then
        [Event.invoke .lsMask (mId ++ "_LS.err_log"),
         Event.checkDimap (mId ++ "_LS"),
         Event.moveOut (mId ++ "_LS")] else []) s
      (ls_block o ard mId cur rc s) := by
  by_cases hp : ard.create_ls_mask
  · rw [if_pos hp]; exact ls_block_ok o ard mId sId cur rc s
  · rw [if_neg hp]; unfold ls_block
    rw [if_neg (by simpa using hp)]; exact BlockOk.skip

theorem coh_block_ok' (o : Oracle) (ard : Ard) (mId sId : String)
    (coherence remove_slave_import : Bool) (rc : Nat) (s : RunState) :
    BlockOk mId sId
      (if coherence then
        [Event.invoke .importSlave (sId ++ "_import.err_log"),
         Event.invoke .coreg (mId ++ "_coreg.err_log"),
         Event.deleteArt (mId ++ "_import"),
         Event.deleteArt (sId ++ "_import"),
         Event.invoke .coherenceEst (mId ++ "_coh.err_log"),
         Event.deleteArt (mId ++ "_coreg"),
         Event.invoke .cohTc (mId ++ "_coh_tc.err_log"),
         Event.checkDimap (mId ++ "_coh"),
         Event.moveOut (mId ++ "_coh"),
         Event.deleteArt (mId ++ "_c")] else []) s
      (coh_block o ard mId sId coherence remove_slave_import rc s) := by
  by_cases hp : coherence
  · rw [if_pos hp]
    exact coh_block_ok o ard mId sId coherence remove_slave_import rc s
  · rw [if_neg hp]; unfold coh_block
    rw [if_neg (by simpa using hp)]; exact BlockOk.skip

/-- Prefixing with the conditional master-import deletion performed when no
coherence branch will need it. -/
theorem BlockOk.pre_ite_delete_else {mId sId : String} {lb : List Event}
    {n : String} {b : Bool} {s : RunState} {f : Flow}
    (h : BlockOk mId sId lb (if b = true then s else delete_dimap n s) f) :
    BlockOk mId sId
      ((if b = true then [] else [Event.deleteArt n]) ++ lb) s f := by
  cases b
  · simp only [Bool.false_eq_true, if_false] at h ⊢
    exact h.pre_delete
  · simp only [if_true] at h ⊢
    exact h.mono (fun e he => by simpa using he)

/-- All events the sections after the master import may append to the
trace, as a function of the configuration. -/
def rest_events (ard : Ard) (mId sId : String) (coherence : Bool) :
    List Event :=
  (if ard.h_a_alpha then
    [Event.invoke .haAlpha (mId ++ "_haa.err_log"),
     Event.invoke .haaTc (mId ++ "_haa_tc.err_log"),
     Event.checkDimap (mId ++ "_pol"),
     Event.moveOut (mId ++ "_pol"),
     Event.deleteArt (mId ++ "_h")] else [])
  ++ [Event.invoke .calibration (mId ++ "_cal.err_log")]
  ++ (if coherence then [] else [Event.deleteArt (mId ++ "_import")])
  ++ (if ard.remove_speckle then
    [Event.invoke .speckle (mId ++ "_speckle.err_log"),
     Event.deleteArt (mId ++ "_cal")] else [])
  ++ (if ard.product_type = "RTC" then
    [Event.invoke .terrainFlat (mId ++ "_rtc.err_log"),
     Event.deleteArt
       (if ard.remove_speckle then mId ++ "_speckle_import"
        else mId ++ "_cal")] else [])
  ++ (if ard.to_db then
    [Event.invoke .linToDb (mId ++ "_cal_db.err_log"),
     Event.deleteArt
       (if ard.product_type = "RTC" then mId ++ "_rtc"
        else if ard.remove_speckle then mId ++ "_speckle_import"
        else mId ++ "_cal")] else [])
  ++ [Event.invoke .bsTc (mId ++ "_bs_tc.err_log"),
      Event.checkDimap (mId ++ "_bs"),
      Event.moveOut (mId ++ "_bs")]
  ++ (if ard.create_ls_mask then
    [Event.invoke .lsMask (mId ++ "_LS.err_log"),
     Event.checkDimap (mId ++ "_LS"),
     Event.moveOut (mId ++ "_LS")] else [])
  ++ [Event.deleteArt
       (if ard.to_db then mId ++ "_cal_db"
        else if ard.product_type = "RTC" then mId ++ "_rtc"
        else if ard.remove_speckle then mId ++ "_speckle_import"
        else mId ++ "_cal")]
  ++ (if coherence then
    [Event.invoke .importSlave (sId ++ "_import.err_log"),
     Event.invoke .coreg (mId ++ "_coreg.err_log"),
     Event.deleteArt (mId ++ "_import"),
     Event.deleteArt (sId ++ "_import"),
     Event.invoke .coherenceEst (mId ++ "_coh.err_log"),
     Event.deleteArt (mId ++ "_coreg"),
     Event.invoke .cohTc (mId ++ "_coh_tc.err_log"),
     Event.checkDimap (mId ++ "_coh"),
     Event.moveOut (mId ++ "_coh"),
     Event.deleteArt (mId ++ "_c")] else [])

/-- All events one run of the pipeline may append to the trace. -/
def pipeline_events (ard : Ard) (mId sId : String) (coherence : Bool) :
    List Event :=
  Event.invoke .importMaster (mId ++ "_import.err_log")
    :: rest_events ard mId sId coherence

theorem rest_flow_ok (o : Oracle) (ard : Ard) (mId sId : String)
    (coherence remove_slave_import : Bool) (rc : Nat) (s : RunState) :
    BlockOk mId sId (rest_events ard mId sId coherence) s
      (rest_flow o ard mId sId coherence remove_slave_import rc s) := by
  unfold rest_flow
  dsimp only
  have hchain := (haa_block_ok' o ard mId sId rc s).step (fun rc1 s1 _ =>
      (cal_block_ok o ard mId sId s1).step (fun rc2 s2 _ =>
        BlockOk.pre_ite_delete_else
          ((speckle_block_ok' o ard mId sId (mId ++ "_cal") rc2
              (if coherence = true then s2
               else delete_dimap (mId ++ "_import") s2)).step
            (fun rc3 s3 _ =>
              (rtc_block_ok' o ard mId sId (if ard.remove_speckle = true then mId ++ "_speckle_import" else mId ++ "_cal") rc3 s3).step (fun rc4 s4 _ =>
                (db_block_ok' o ard mId sId (if ard.product_type = "RTC" then mId ++ "_rtc" else (if ard.remove_speckle = true then mId ++ "_speckle_import" else mId ++ "_cal")) rc4 s4).step (fun rc5 s5 _ =>
                  (bs_tc_block_ok o mId sId s5).step (fun rc6 s6 _ =>
                    (ls_block_ok' o ard mId sId (if ard.to_db = true then mId ++ "_cal_db" else (if ard.product_type = "RTC" then mId ++ "_rtc" else (if ard.remove_speckle = true then mId ++ "_speckle_import" else mId ++ "_cal"))) rc6 s6).step
                      (fun rc7 s7 _ =>
                        BlockOk.pre_delete
                          (coh_block_ok' o ard mId sId coherence
                            remove_slave_import rc7
                            (delete_dimap (if ard.to_db = true then mId ++ "_cal_db" else (if ard.product_type = "RTC" then mId ++ "_rtc" else (if ard.remove_speckle = true then mId ++ "_speckle_import" else mId ++ "_cal"))) s7))))))))))
  refine hchain.mono ?_
  intro e he
  unfold rest_events
  simp only [List.append_assoc, List.mem_append, List.mem_cons,
    List.mem_singleton, List.not_mem_nil, or_false, false_or] at he ⊢
  tauto

theorem pipeline_ok (o : Oracle) (ard : Ard) (mId sId : String)
    (coherence remove_slave_import : Bool) (s : RunState) :
    BlockOk mId sId (pipeline_events ard mId sId coherence) s
      (pipeline_flow o ard mId sId coherence remove_slave_import s) := by
  unfold pipeline_flow pipeline_events
  exact BlockOk.mono
    ((import_block_ok o mId sId s).step (fun rc1 s1 _ =>
      rest_flow_ok o ard mId sId coherence remove_slave_import rc1 s1))
    (by intro e he; simpa using he)

/-! ### Control-flow facts: every path reaching the final statements
carries a zero return code -/

@[simp] theorem string_append_right_inj {a b c : String} :
    a ++ b = a ++ c ↔ b = c := by
  constructor
  · intro h
    have h2 := congrArg String.data h
    simp only [String.data_append] at h2
    exact String.ext (List.append_cancel_left h2)
  · intro h; rw [h]

theorem Flow.step_eq_cont {f : Flow} {g : Nat → RunState → Flow} {rc : Nat}
    {s : RunState} (h : f.step g = .cont rc s) :
    ∃ rc1 s1, f = .cont rc1 s1 ∧ g rc1 s1 = .cont rc s := by
  cases f with
  | cont rc1 s1 => exact ⟨rc1, s1, rfl, h⟩
  | stop out => simp [Flow.step] at h

/-- The backscatter terrain-correction section can only continue with a
zero return code (the code of the passing dimap check). -/
theorem bs_tc_block_cont {o : Oracle} {mId : String} {s : RunState}
    {rc' : Nat} {s' : RunState} (h : bs_tc_block o mId s = .cont rc' s') :
    rc' = 0 := by
  unfold bs_tc_block _terrain_correction at h
  dsimp only at h
  split at h
  · simp at h
  · rename_i h2
    simp only [Flow.cont.injEq] at h
    rw [← h.1]
    simpa using h2

/-- The layover/shadow-mask section continues with a zero return code when
entered with one. -/
theorem ls_block_cont {o : Oracle} {ard : Ard} {mId cur : String} {rc : Nat}
    {s : RunState} {rc' : Nat} {s' : RunState} (hrc : rc = 0)
    (h : ls_block o ard mId cur rc s = .cont rc' s') : rc' = 0 := by
  unfold ls_block _ls_mask at h
  split at h
  · dsimp only at h
    split at h
    · simp at h
    · split at h
      · simp at h
      · rename_i h2
        simp only [Flow.cont.injEq] at h
        rw [← h.1]
        simpa using h2
  · simp only [Flow.cont.injEq] at h
    rw [← h.1]; exact hrc

/-- The coherence tail can only continue with a zero return code. -/
theorem coh_tail_cont {o : Oracle} {mId : String} {s : RunState}
    {rc' : Nat} {s' : RunState} (h : coh_tail o mId s = .cont rc' s') :
    rc' = 0 := by
  unfold coh_tail _coherence _terrain_correction at h
  dsimp only at h
  split at h
  · simp at h
  · split at h
    · simp at h
    · rename_i h2
      simp only [Flow.cont.injEq] at h
      rw [← h.1]
      simpa using h2

/-- The coherence section continues with a zero return code when entered
with one. -/
theorem coh_block_cont {o : Oracle} {ard : Ard} {mId sId : String}
    {coherence remove_slave_import : Bool} {rc : Nat} {s : RunState}
    {rc' : Nat} {s' : RunState} (hrc : rc = 0)
    (h : coh_block o ard mId sId coherence remove_slave_import rc s =
      .cont rc' s') : rc' = 0 := by
  unfold coh_block _import _coreg2 at h
  split at h
  · dsimp only at h
    split at h
    · simp at h
    · split at h
      · simp at h
      · exact coh_tail_cont h
  · simp only [Flow.cont.injEq] at h
    rw [← h.1]; exact hrc

/-- Whenever the sections after the master import run to completion, the
last-assigned return code is zero. -/
theorem rest_flow_cont_rc {o : Oracle} {ard : Ard} {mId sId : String}
    {coherence remove_slave_import : Bool} {rc0 : Nat} {s : RunState}
    {rc : Nat} {s' : RunState}
    (h : rest_flow o ard mId sId coherence remove_slave_import rc0 s =
      .cont rc s') : rc = 0 := by
  unfold rest_flow at h
  dsimp only at h
  obtain ⟨rc1, s1, hf1, h⟩ := Flow.step_eq_cont h
  obtain ⟨rc2, s2, hf2, h⟩ := Flow.step_eq_cont h
  obtain ⟨rc3, s3, hf3, h⟩ := Flow.step_eq_cont h
  obtain ⟨rc4, s4, hf4, h⟩ := Flow.step_eq_cont h
  obtain ⟨rc5, s5, hf5, h⟩ := Flow.step_eq_cont h
  obtain ⟨rc6, s6, hf6, h⟩ := Flow.step_eq_cont h
  obtain ⟨rc7, s7, hf7, h⟩ := Flow.step_eq_cont h
  exact coh_block_cont (ls_block_cont (bs_tc_block_cont hf6) hf7) h

/-- Whenever the pipeline reaches the final statements of `burst_to_ard`
(no early return happened), the last-assigned return code is zero. -/
theorem pipeline_cont_rc {o : Oracle} {ard : Ard} {mId sId : String}
    {coherence remove_slave_import : Bool} {s : RunState} {rc : Nat}
    {s' : RunState}
    (h : pipeline_flow o ard mId sId coherence remove_slave_import s =
      .cont rc s') : rc = 0 := by
  unfold pipeline_flow at h
  obtain ⟨rc0, s0, hf0, h⟩ := Flow.step_eq_cont h
  exact rest_flow_cont_rc h

/-! ### Fully successful runs -/

@[simp] theorem stageSeq_append (t1 t2 : List Event) :
    stageSeq (t1 ++ t2) = stageSeq t1 ++ stageSeq t2 := by
  unfold stageSeq; exact List.filterMap_append t1 t2 _

@[simp] theorem stageSeq_nil : stageSeq [] = [] := rfl

@[simp] theorem stageSeq_cons_invoke (tag : StageTag) (l : String)
    (t : List Event) :
    stageSeq (Event.invoke tag l :: t) = tag :: stageSeq t := rfl

@[simp] theorem stageSeq_cons_check (n : String) (t : List Event) :
    stageSeq (Event.checkDimap n :: t) = stageSeq t := rfl

@[simp] theorem stageSeq_cons_move (n : String) (t : List Event) :
    stageSeq (Event.moveOut n :: t) = stageSeq t := rfl

@[simp] theorem stageSeq_cons_delete (n : String) (t : List Event) :
    stageSeq (Event.deleteArt n :: t) = stageSeq t := rfl

@[simp] theorem stageSeq_cons_purgeTemp (t : List Event) :
    stageSeq (Event.purgeTemp :: t) = stageSeq t := rfl

@[simp] theorem stageSeq_cons_purgeOut (t : List Event) :
    stageSeq (Event.purgeOut :: t) = stageSeq t := rfl

@[simp] theorem stageSeq_cons_marker (t : List Event) :
    stageSeq (Event.writeMarker :: t) = stageSeq t := rfl

theorem import_block_success (o : Oracle) (mId : String) (s : RunState)
    (hex : o.exitCode .importMaster = 0)
    (hni : (mId ++ "_import") ∉ s.temp) :
    ∃ rc' s', import_block o mId s = .cont rc' s' ∧
      stageSeq s'.trace = stageSeq s.trace ++ [StageTag.importMaster] ∧
      (∀ a ∈ s.outArt, a ∈ s'.outArt) := by
  unfold import_block _import
  rw [if_neg hni]
  dsimp only
  rw [if_neg (by simp [hex])]
  exact ⟨_, _, rfl, by simp, by intro a ha; simpa using ha⟩

theorem haa_block_success (o : Oracle) (ard : Ard) (mId : String) (rc : Nat)
    (s : RunState) (hex : ∀ t, o.exitCode t = 0)
    (hst : ∀ n, o.statsOk n = true) :
    ∃ rc' s', haa_block o ard mId rc s = .cont rc' s' ∧
      stageSeq s'.trace = stageSeq s.trace ++
        (if ard.h_a_alpha then [StageTag.haAlpha, StageTag.haaTc] else []) ∧
      (∀ a ∈ s.outArt, a ∈ s'.outArt) ∧
      (ard.h_a_alpha = true → (mId ++ "_pol") ∈ s'.outArt) := by
  unfold haa_block _ha_alpha _terrain_correction
  by_cases hp : ard.h_a_alpha
  · rw [if_pos hp]
    dsimp only
    rw [if_neg (by simp [hex])]
    rw [if_neg (by simp [hex, hst])]
    refine ⟨_, _, rfl, by simp [hp, delete_dimap, move_dimap], ?_, ?_⟩
    · intro a ha; simp [delete_dimap, move_dimap, ha]
    · intro _; simp [delete_dimap, move_dimap]
  · rw [if_neg hp]
    exact ⟨rc, s, rfl, by simp [hp], fun a ha => ha,
      fun h => absurd h (by simpa using hp)⟩

theorem cal_block_success (o : Oracle) (ard : Ard) (mId : String)
    (s : RunState) (hex : ∀ t, o.exitCode t = 0) {g : String}
    (hg : calibration_graph ard.product_type = some g) :
    ∃ rc' s', cal_block o ard mId s = .cont rc' s' ∧
      stageSeq s'.trace = stageSeq s.trace ++ [StageTag.calibration] ∧
      (∀ a ∈ s.outArt, a ∈ s'.outArt) := by
  unfold cal_block _calibration
  rw [hg]
  dsimp only
  rw [if_neg (by simp [hex])]
  exact ⟨_, _, rfl, by simp, by intro a ha; simpa using ha⟩

theorem speckle_block_success (o : Oracle) (ard : Ard) (mId cur : String)
    (rc : Nat) (s : RunState) (hex : ∀ t, o.exitCode t = 0) :
    ∃ rc' s', speckle_block o ard mId cur rc s = .cont rc' s' ∧
      stageSeq s'.trace = stageSeq s.trace ++
        (if ard.remove_speckle then [StageTag.speckle] else []) ∧
      (∀ a ∈ s.outArt, a ∈ s'.outArt) := by
  unfold speckle_block _speckle_filter
  by_cases hp : ard.remove_speckle
  · rw [if_pos hp]
    dsimp only
    rw [if_neg (by simp [hex])]
    exact ⟨_, _, rfl, by simp [hp, delete_dimap],
      by intro a ha; simp [delete_dimap, ha]⟩
  · rw [if_neg hp]
    exact ⟨rc, s, rfl, by simp [hp], fun a ha => ha⟩

theorem rtc_block_success (o : Oracle) (ard : Ard) (mId cur : String)
    (rc : Nat) (s : RunState) (hex : ∀ t, o.exitCode t = 0) :
    ∃ rc' s', rtc_block o ard mId cur rc s = .cont rc' s' ∧
      stageSeq s'.trace = stageSeq s.trace ++
        (if ard.product_type = "RTC" then [StageTag.terrainFlat] else []) ∧
      (∀ a ∈ s.outArt, a ∈ s'.outArt) := by
  unfold rtc_block _terrain_flattening
  by_cases hp : ard.product_type = "RTC"
  · rw [if_pos hp]
    dsimp only
    rw [if_neg (by simp [hex])]
    exact ⟨_, _, rfl, by simp [hp, delete_dimap],
      by intro a ha; simp [delete_dimap, ha]⟩
  · rw [if_neg hp]
    exact ⟨rc, s, rfl, by simp [hp], fun a ha => ha⟩

theorem db_block_success (o : Oracle) (ard : Ard) (mId cur : String)
    (rc : Nat) (s : RunState) (hex : ∀ t, o.exitCode t = 0) :
    ∃ rc' s', db_block o ard mId cur rc s = .cont rc' s' ∧
      stageSeq s'.trace = stageSeq s.trace ++
        (if ard.to_db then [StageTag.linToDb] else []) ∧
      (∀ a ∈ s.outArt, a ∈ s'.outArt) := by
  unfold db_block _linear_to_db
  by_cases hp : ard.to_db
  · rw [if_pos hp]
    dsimp only
    rw [if_neg (by simp [hex])]
    exact ⟨_, _, rfl, by simp [hp, delete_dimap],
      by intro a ha; simp [delete_dimap, ha]⟩
  · rw [if_neg hp]
    exact ⟨rc, s, rfl, by simp [hp], fun a ha => ha⟩

theorem bs_tc_block_success (o : Oracle) (mId : String) (s : RunState)
    (hex : ∀ t, o.exitCode t = 0) (hst : ∀ n, o.statsOk n = true) :
    ∃ rc' s', bs_tc_block o mId s = .cont rc' s' ∧
      stageSeq s'.trace = stageSeq s.trace ++ [StageTag.bsTc] ∧
      (∀ a ∈ s.outArt, a ∈ s'.outArt) ∧
      (mId ++ "_bs") ∈ s'.outArt := by
  unfold bs_tc_block _terrain_correction
  dsimp only
  rw [if_neg (by simp [hex, hst])]
  refine ⟨_, _, rfl, by simp [move_dimap], ?_, by simp [move_dimap]⟩
  intro a ha; simp [move_dimap, ha]

theorem ls_block_success (o : Oracle) (ard : Ard) (mId cur : String)
    (rc : Nat) (s : RunState) (hex : ∀ t, o.exitCode t = 0) :
    ∃ rc' s', ls_block o ard mId cur rc s = .cont rc' s' ∧
      stageSeq s'.trace = stageSeq s.trace ++
        (if ard.create_ls_mask then [StageTag.lsMask] else []) ∧
      (∀ a ∈ s.outArt, a ∈ s'.outArt) ∧
      (ard.create_ls_mask = true → (mId ++ "_LS") ∈ s'.outArt) := by
  unfold ls_block _ls_mask
  by_cases hp : ard.create_ls_mask
  · rw [if_pos hp]
    dsimp only
    rw [if_neg (by simp [hex])]
    rw [if_neg (by simp [hex])]
    refine ⟨_, _, rfl, by simp [hp, move_dimap], ?_, ?_⟩
    · intro a ha; simp [move_dimap, ha]
    · intro _; simp [move_dimap]
  · rw [if_neg hp]
    exact ⟨rc, s, rfl, by simp [hp], fun a ha => ha,
      fun h => absurd h (by simpa using hp)⟩

@[simp] theorem ite_delete_temp (b : Bool) (n : String) (s : RunState) :
    (if b = true then delete_dimap n s else s).temp =
      if b = true then s.temp.erase n else s.temp := by
  cases b <;> simp [delete_dimap]

theorem coh_block_success (o : Oracle) (ard : Ard) (mId sId : String)
    (coherence remove_slave_import : Bool) (rc : Nat) (s : RunState)
    (hex : ∀ t, o.exitCode t = 0) (hst : ∀ n, o.statsOk n = true)
    (hsep : (sId ++ "_import") ∉
      ([mId ++ "_import", mId ++ "_coreg", mId ++ "_c",
        mId ++ "_coh"] : List String)) :
    ∃ rc' s',
      coh_block o ard mId sId coherence remove_slave_import rc s =
        .cont rc' s' ∧
      stageSeq s'.trace = stageSeq s.trace ++
        (if coherence then
          [StageTag.importSlave, StageTag.coreg, StageTag.coherenceEst,
           StageTag.cohTc] else []) ∧
      (∀ a ∈ s.outArt, a ∈ s'.outArt) ∧
      (coherence = true → (mId ++ "_coh") ∈ s'.outArt) ∧
      (coherence = true → (mId ++ "_import") ∉ s'.temp) ∧
      (coherence = true → (mId ++ "_coreg") ∉ s'.temp) ∧
      (coherence = true → remove_slave_import = false →
        (sId ++ "_import") ∈ s'.temp) := by
  simp only [List.mem_cons, List.not_mem_nil, or_false, not_or] at hsep
  obtain ⟨hs1, hs2, hs3, hs4⟩ := hsep
  by_cases hp : coherence
  · rw [coh_block, if_pos (by simpa using hp)]
    dsimp only
    unfold _import _coreg2
    rw [if_neg (by simp [hex])]
    rw [if_neg (by simp [hex])]
    by_cases hrsi : remove_slave_import = true
    · rw [if_pos hrsi]
      unfold coh_tail _coherence _terrain_correction
      dsimp only
      rw [if_neg (by simp [hex])]
      rw [if_neg (by simp [hex, hst])]
      refine ⟨_, _, rfl, ?_, ?_, ?_, ?_, ?_, ?_⟩
      · simp [hp, delete_dimap, move_dimap]
      · intro a ha
        simp [delete_dimap, move_dimap, hex, ha]
      · intro _
        simp [delete_dimap, move_dimap]
      · intro _
        simp [delete_dimap, move_dimap, hex]
      · intro _
        simp [delete_dimap, move_dimap, hex]
      · intro _ hf
        rw [hf] at hrsi
        exact absurd hrsi (by simp)
    · rw [if_neg hrsi]
      unfold coh_tail _coherence _terrain_correction
      dsimp only
      rw [if_neg (by simp [hex])]
      rw [if_neg (by simp [hex, hst])]
      refine ⟨_, _, rfl, ?_, ?_, ?_, ?_, ?_, ?_⟩
      · simp [hp, delete_dimap, move_dimap]
      · intro a ha
        simp [delete_dimap, move_dimap, hex, ha]
      · intro _
        simp [delete_dimap, move_dimap]
      · intro _
        simp [delete_dimap, move_dimap, hex]
      · intro _
        simp [delete_dimap, move_dimap, hex]
      · intro _ _
        simp [delete_dimap, move_dimap, hex, hs1, hs2, hs3, hs4]
  · rw [coh_block, if_neg (by simpa using hp)]
    exact ⟨rc, s, rfl, by simp [hp], fun a ha => ha,
      fun h => absurd h (by simpa using hp),
      fun h => absurd h (by simpa using hp),
      fun h => absurd h (by simpa using hp),
      fun h _ => absurd h (by simpa using hp)⟩

/-- A fully successful run from empty directories: every engine invocation
exits 0, every produced artifact verifies, and the product type is one of
the three supported ones.  The run returns 0, writes the marker, performs
exactly the expected stage sequence, and leaves the expected artifacts. -/
theorem success_run (o : Oracle) (ard : Ard) (mId sId : String)
    (coherence remove_slave_import : Bool)
    (hex : ∀ t, o.exitCode t = 0) (hst : ∀ n, o.statsOk n = true)
    {g : String} (hg : calibration_graph ard.product_type = some g)
    (hsep : (sId ++ "_import") ∉
      ([mId ++ "_import", mId ++ "_coreg", mId ++ "_c",
        mId ++ "_coh"] : List String)) :
    ∃ sf,
      burst_to_ard o ard mId sId coherence remove_slave_import
        RunState.start = .ret 0 sf ∧
      sf.marker = true ∧
      stageSeq sf.trace = expected_stage_seq ard coherence ∧
      (mId ++ "_bs") ∈ sf.outArt ∧
      (ard.h_a_alpha = true → (mId ++ "_pol") ∈ sf.outArt) ∧
      (ard.create_ls_mask = true → (mId ++ "_LS") ∈ sf.outArt) ∧
      (coherence = true → (mId ++ "_coh") ∈ sf.outArt) ∧
      (coherence = true →
        (mId ++ "_import") ∉ sf.temp ∧ (mId ++ "_coreg") ∉ sf.temp) ∧
      (coherence = true → remove_slave_import = false →
        (sId ++ "_import") ∈ sf.temp) := by
  obtain ⟨rc1, s1, e1, t1, m1⟩ :=
    import_block_success o mId RunState.start (hex _)
      (by simp [RunState.start])
  obtain ⟨rc2, s2, e2, t2, m2, f2⟩ :=
    haa_block_success o ard mId rc1 s1 hex hst
  obtain ⟨rc3, s3, e3, t3, m3⟩ := cal_block_success o ard mId s2 hex hg
  have t3b : stageSeq (if coherence = true then s3
      else delete_dimap (mId ++ "_import") s3).trace = stageSeq s3.trace := by
    cases coherence <;> simp [delete_dimap]
  have m3b : (if coherence = true then s3
      else delete_dimap (mId ++ "_import") s3).outArt = s3.outArt := by
    cases coherence <;> simp [delete_dimap]
  obtain ⟨rc4, s4, e4, t4, m4⟩ :=
    speckle_block_success o ard mId (mId ++ "_cal") rc3
      (if coherence = true then s3 else delete_dimap (mId ++ "_import") s3)
      hex
  obtain ⟨rc5, s5, e5, t5, m5⟩ :=
    rtc_block_success o ard mId
      (if ard.remove_speckle = true then mId ++ "_speckle_import"
       else mId ++ "_cal") rc4 s4 hex
  obtain ⟨rc6, s6, e6, t6, m6⟩ :=
    db_block_success o ard mId
      (if ard.product_type = "RTC" then mId ++ "_rtc"
       else if ard.remove_speckle = true then mId ++ "_speckle_import"
       else mId ++ "_cal") rc5 s5 hex
  obtain ⟨rc7, s7, e7, t7, m7, f7⟩ := bs_tc_block_success o mId s6 hex hst
  obtain ⟨rc8, s8, e8, t8, m8, f8⟩ :=
    ls_block_success o ard mId
      (if ard.to_db = true then mId ++ "_cal_db"
       else if ard.product_type = "RTC" then mId ++ "_rtc"
       else if ard.remove_speckle = true then mId ++ "_speckle_import"
       else mId ++ "_cal") rc7 s7 hex
  obtain ⟨rc9, s9, e9, t9, m9, f9, f9i, f9c, f9s⟩ :=
    coh_block_success o ard mId sId coherence remove_slave_import rc8
      (delete_dimap
        (if ard.to_db = true then mId ++ "_cal_db"
         else if ard.product_type = "RTC" then mId ++ "_rtc"
         else if ard.remove_speckle = true then mId ++ "_speckle_import"
         else mId ++ "_cal") s8) hex hst hsep
  have hP : pipeline_flow o ard mId sId coherence remove_slave_import
      RunState.start = .cont rc9 s9 := by
    unfold pipeline_flow rest_flow
    simp only [e1, Flow.step_cont, e2, e3, e4, e5, e6, e7, e8, e9]
  have hrc9 : rc9 = 0 := pipeline_cont_rc hP
  subst hrc9
  refine ⟨⟨s9.temp, s9.outArt, s9.outLogs, true,
      s9.trace ++ [Event.writeMarker]⟩, ?_, rfl, ?_, ?_,
    ?_, ?_, ?_, ?_, ?_⟩
  · rw [burst_to_ard, hP]
    simp [final_block]
  · show stageSeq (s9.trace ++ [Event.writeMarker]) =
      expected_stage_seq ard coherence
    rw [stageSeq_append, t9]
    simp only [delete_dimap, stageSeq_append]
    rw [t8, t7, t6, t5, t4, t3b, t3, t2, t1]
    simp [RunState.start, expected_stage_seq, stageSeq]
  · have hbs : (mId ++ "_bs") ∈ s8.outArt := m8 _ f7
    exact m9 _ (by simp only [delete_dimap]; exact hbs)
  · intro h
    have hp3b : (mId ++ "_pol") ∈ (if coherence = true then s3
        else delete_dimap (mId ++ "_import") s3).outArt := by
      rw [m3b]; exact m3 _ (f2 h)
    have hp8 : (mId ++ "_pol") ∈ s8.outArt :=
      m8 _ (m7 _ (m6 _ (m5 _ (m4 _ hp3b))))
    exact m9 _ (by simp only [delete_dimap]; exact hp8)
  · intro h
    have hls : (mId ++ "_LS") ∈ s8.outArt := f8 h
    exact m9 _ (by simp only [delete_dimap]; exact hls)
  · exact f9
  · intro h
    exact ⟨f9i h, f9c h⟩
  · exact f9s

/-! ### Further helper lemmas for the claims -/

theorem purgeOut_not_mem_rest_events (ard : Ard) (mId sId : String)
    (coherence : Bool) :
    Event.purgeOut ∉ rest_events ard mId sId coherence := by
  unfold rest_events
  simp only [List.mem_append]
  split_ifs <;> simp

theorem purgeOut_not_mem_pipeline_events (ard : Ard) (mId sId : String)
    (coherence : Bool) :
    Event.purgeOut ∉ pipeline_events ard mId sId coherence := by
  unfold pipeline_events
  simp only [List.mem_cons]
  rintro (h | h)
  · exact absurd h (by simp)
  · exact purgeOut_not_mem_rest_events ard mId sId coherence h

theorem terrainFlat_not_mem_pipeline_events (ard : Ard) (mId sId : String)
    (coherence : Bool) (hp : ard.product_type ≠ "RTC") (l : String) :
    Event.invoke .terrainFlat l ∉ pipeline_events ard mId sId coherence := by
  unfold pipeline_events rest_events
  simp only [List.mem_cons, List.mem_append]
  rw [if_neg hp]
  split_ifs <;> simp

theorem importMaster_not_mem_rest_events (ard : Ard) (mId sId : String)
    (coherence : Bool) (l : String) :
    Event.invoke .importMaster l ∉ rest_events ard mId sId coherence := by
  unfold rest_events
  simp only [List.mem_append]
  split_ifs <;> simp

/-- The final statements never add an engine invocation to the trace. -/
theorem final_block_invoke {rc : Nat} {s : RunState} {tag : StageTag}
    {l : String}
    (h : Event.invoke tag l ∈ (final_block rc s).state.trace) :
    Event.invoke tag l ∈ s.trace := by
  unfold final_block at h
  split at h
  · simpa using h
  · simp only [remove_folder_content_out, remove_folder_content_temp,
      Outcome.state_ret, List.append_assoc, List.mem_append,
      List.mem_singleton] at h
    rcases h with h | h | h
    · exact h
    all_goals exact absurd h (by simp)

/-- The coherence tail only extends the trace. -/
theorem coh_tail_trace_mono (o : Oracle) (mId : String) {s : RunState}
    {e : Event} (he : e ∈ s.trace) :
    e ∈ (coh_tail o mId s).state.trace := by
  unfold coh_tail _coherence _terrain_correction
  dsimp only
  split
  · simp [remove_folder_content_temp, he]
  · split
    · simp [remove_folder_content_temp, delete_dimap, he]
    · simp [delete_dimap, move_dimap, he]

/-- The stage sequence shape of a full RTC run, abstracted over the four
optional flags and the coherence request. -/
def rtc_seq (b1 b2 b3 b4 b5 : Bool) : List StageTag :=
  [StageTag.importMaster]
  ++ (if b1 = true then [StageTag.haAlpha, StageTag.haaTc] else [])
  ++ [StageTag.calibration]
  ++ (if b2 = true then [StageTag.speckle] else [])
  ++ [StageTag.terrainFlat]
  ++ (if b3 = true then [StageTag.linToDb] else [])
  ++ [StageTag.bsTc]
  ++ (if b4 = true then [StageTag.lsMask] else [])
  ++ (if b5 = true then
        [StageTag.importSlave, StageTag.coreg, StageTag.coherenceEst,
         StageTag.cohTc] else [])

/-- The stage sequence shape of a full non-RTC run. -/
def gtc_seq (b1 b2 b3 b4 b5 : Bool) : List StageTag :=
  [StageTag.importMaster]
  ++ (if b1 = true then [StageTag.haAlpha, StageTag.haaTc] else [])
  ++ [StageTag.calibration]
  ++ (if b2 = true then [StageTag.speckle] else [])
  ++ (if b3 = true then [StageTag.linToDb] else [])
  ++ [StageTag.bsTc]
  ++ (if b4 = true then [StageTag.lsMask] else [])
  ++ (if b5 = true then
        [StageTag.importSlave, StageTag.coreg, StageTag.coherenceEst,
         StageTag.cohTc] else [])

theorem expected_eq_rtc_seq {ard : Ard} {coherence : Bool}
    (hp : ard.product_type = "RTC") :
    expected_stage_seq ard coherence =
      rtc_seq ard.h_a_alpha ard.remove_speckle ard.to_db
        ard.create_ls_mask coherence := by
  unfold expected_stage_seq rtc_seq
  rw [if_pos hp]

theorem expected_eq_gtc_seq {ard : Ard} {coherence : Bool}
    (hp : ard.product_type ≠ "RTC") :
    expected_stage_seq ard coherence =
      gtc_seq ard.h_a_alpha ard.remove_speckle ard.to_db
        ard.create_ls_mask coherence := by
  unfold expected_stage_seq gtc_seq
  rw [if_neg hp]
  simp

theorem rtc_seq_order : ∀ (b1 b2 b3 b4 b5 : Bool),
    (rtc_seq b1 b2 b3 b4 b5).indexOf StageTag.calibration <
      (rtc_seq b1 b2 b3 b4 b5).indexOf StageTag.terrainFlat ∧
    (rtc_seq b1 b2 b3 b4 b5).indexOf StageTag.terrainFlat <
      (rtc_seq b1 b2 b3 b4 b5).indexOf StageTag.bsTc ∧
    (b2 = true →
      (rtc_seq b1 b2 b3 b4 b5).indexOf StageTag.calibration <
        (rtc_seq b1 b2 b3 b4 b5).indexOf StageTag.speckle ∧
      (rtc_seq b1 b2 b3 b4 b5).indexOf StageTag.speckle <
        (rtc_seq b1 b2 b3 b4 b5).indexOf StageTag.terrainFlat) := by
  decide

theorem rtc_seq_mem : ∀ (b1 b2 b3 b4 b5 : Bool),
    StageTag.terrainFlat ∈ rtc_seq b1 b2 b3 b4 b5 := by
  decide

theorem gtc_seq_not_mem : ∀ (b1 b2 b3 b4 b5 : Bool),
    StageTag.terrainFlat ∉ gtc_seq b1 b2 b3 b4 b5 := by
  decide

/-! ### Concrete fixtures used by witnesses and counterexamples -/

/-- An engine that succeeds everywhere, with verifiable artifacts. -/
def oracle_ok : Oracle := ⟨fun _ => 0, fun _ => true⟩

/-- An engine that fails (exit 1) at exactly one invocation site. -/
def oracle_fail (t : StageTag) : Oracle :=
  ⟨fun t' => if t' = t then 1 else 0, fun _ => true⟩

/-- A minimal configuration: GTCgamma backscatter, all optional stages
off. -/
def ard_gtc : Ard := ⟨false, false, "GTCgamma", false, false, false,
  "VV, VH", "VV"⟩

/-- Same configuration with the polarimetric decomposition enabled. -/
def ard_haa : Ard := ⟨true, false, "GTCgamma", false, false, false,
  "VV, VH", "VV"⟩

/-- A configuration with an unsupported product type. -/
def ard_bad : Ard := ⟨false, false, "GTCbeta", false, false, false,
  "VV, VH", "VV"⟩

/-- A state whose temp directory already holds the master import artifact
of burst id `m`. -/
def state_with_master : RunState := ⟨{"m_import"}, ∅, ∅, false, []⟩

/-- A state whose temp directory already holds the slave import artifact of
burst id `s`. -/
def state_with_slave : RunState := ⟨{"s_import"}, ∅, ∅, false, []⟩

/-- A state whose temp directory already holds a stale geocoded
decomposition artifact of burst id `m`. -/
def state_with_pol : RunState := ⟨{"m_pol"}, ∅, ∅, false, []⟩

/-! ### The claims -/

/-- C1 (counterexample): a run whose import stage fails returns nonzero,
yet the output directory is not empty afterwards — it still holds the log
file of the import stage.  This refutes the claim that after every stage
failure both the temp and the output directory contain zero entries. -/
theorem C1_counterexample :
    (burst_to_ard (oracle_fail .importMaster) ard_gtc "m" "s" false false
      RunState.start).isRet = true ∧
    (burst_to_ard (oracle_fail .importMaster) ard_gtc "m" "s" false false
      RunState.start).code ≠ 0 ∧
    ¬ (burst_to_ard (oracle_fail .importMaster) ard_gtc "m" "s" false false
      RunState.start).state.outEmpty := by decide

/-- C1 (amended): for every configuration and every failing run (nonzero
return code), after `burst_to_ard` returns the temp directory contains zero
entries; the output directory is not emptied. -/
theorem C1_theorem (o : Oracle) (ard : Ard) (mId sId : String)
    (coherence remove_slave_import : Bool) (s : RunState)
    (hret : (burst_to_ard o ard mId sId coherence remove_slave_import
      s).isRet = true)
    (hc : (burst_to_ard o ard mId sId coherence remove_slave_import
      s).code ≠ 0) :
    (burst_to_ard o ard mId sId coherence remove_slave_import
      s).state.temp = ∅ := by
  have hbk := pipeline_ok o ard mId sId coherence remove_slave_import s
  rcases hP : pipeline_flow o ard mId sId coherence remove_slave_import s
    with ⟨rc, s1⟩ | ⟨⟨c, s1⟩ | ⟨c, s1⟩⟩
  · have h0 := pipeline_cont_rc hP
    subst h0
    rw [burst_to_ard, hP] at hc
    simp [final_block] at hc
  · rw [hP] at hbk
    have h5 := hbk.2.2.2.2.1 c s1 rfl
    rw [burst_to_ard, hP]
    simpa using h5.2
  · rw [burst_to_ard, hP] at hret
    simp at hret

/-- C1 (witness): at the concrete failing run, the hypotheses hold and the
temp directory is empty afterwards. -/
theorem C1_witness :
    (burst_to_ard (oracle_fail .importMaster) ard_gtc "m" "s" false false
      RunState.start).isRet = true ∧
    (burst_to_ard (oracle_fail .importMaster) ard_gtc "m" "s" false false
      RunState.start).code ≠ 0 ∧
    (burst_to_ard (oracle_fail .importMaster) ard_gtc "m" "s" false false
      RunState.start).state.temp = ∅ :=
  ⟨by decide, by decide,
    C1_theorem (oracle_fail .importMaster) ard_gtc "m" "s" false false
      RunState.start (by decide) (by decide)⟩

/-- C3: starting from a state without the completion marker, after any run
of `burst_to_ard` the marker exists in the output directory exactly when
the run returned with code 0 (the `Succeeded` status). -/
theorem C3_theorem (o : Oracle) (ard : Ard) (mId sId : String)
    (coherence remove_slave_import : Bool) (s : RunState)
    (hm : s.marker = false) :
    ((burst_to_ard o ard mId sId coherence remove_slave_import
        s).state.marker = true ↔
      ((burst_to_ard o ard mId sId coherence remove_slave_import
        s).isRet = true ∧
       (burst_to_ard o ard mId sId coherence remove_slave_import
        s).code = 0)) := by
  have hbk := pipeline_ok o ard mId sId coherence remove_slave_import s
  rcases hP : pipeline_flow o ard mId sId coherence remove_slave_import s
    with ⟨rc, s1⟩ | ⟨⟨c, s1⟩ | ⟨c, s1⟩⟩
  · have h0 := pipeline_cont_rc hP
    subst h0
    rw [burst_to_ard, hP]
    simp [final_block]
  · rw [hP] at hbk
    have h5 := hbk.2.2.2.2.1 c s1 rfl
    have h2 := hbk.2.1
    rw [burst_to_ard, hP]
    simp only [Flow.finish_stop, Outcome.state_ret, Outcome.isRet_ret,
      Outcome.code_ret]
    simp only [Flow.state_stop, Outcome.state_ret] at h2
    rw [h2, hm]
    simp [h5.1]
  · rw [hP] at hbk
    have h2 := hbk.2.1
    rw [burst_to_ard, hP]
    simp only [Flow.finish_stop, Outcome.state_procExit,
      Outcome.isRet_procExit]
    simp only [Flow.state_stop, Outcome.state_procExit] at h2
    rw [h2, hm]
    simp

/-- C3 (witness): a fully successful concrete run writes the marker. -/
theorem C3_witness :
    RunState.start.marker = false ∧
    (burst_to_ard oracle_ok ard_gtc "m" "s" false false
      RunState.start).state.marker = true :=
  ⟨by decide,
    (C3_theorem oracle_ok ard_gtc "m" "s" false false RunState.start
      (by decide)).mpr ⟨by decide, by decide⟩⟩

/-- C4 (counterexample): the slave import artifact already exists on disk,
yet the coherence branch still invokes the slave import stage — there is no
resumability check, unlike the master import. -/
theorem C4_counterexample :
    ("s" ++ "_import") ∈ state_with_slave.temp ∧
    Event.invoke .importSlave ("s" ++ "_import.err_log") ∈
      (burst_to_ard oracle_ok ard_gtc "m" "s" true false
        state_with_slave).state.trace := by decide

/-- C4 (amended): when the coherence branch runs, the slave import stage is
always invoked, even when its output artifact already exists on disk; only
the master import has the resumability skip. -/
theorem C4_theorem (o : Oracle) (ard : Ard) (mId sId : String)
    (remove_slave_import : Bool) (rc : Nat) (s : RunState)
    (hexists : (sId ++ "_import") ∈ s.temp) :
    Event.invoke .importSlave (sId ++ "_import.err_log") ∈
      (coh_block o ard mId sId true remove_slave_import rc
        s).state.trace := by
  rw [coh_block, if_pos rfl]
  unfold _import _coreg2
  dsimp only
  split
  · simp [remove_folder_content_temp]
  · split
    · simp [remove_folder_content_temp]
    · apply coh_tail_trace_mono
      cases remove_slave_import <;> simp [delete_dimap]

/-- C4 (witness): at the concrete state holding the slave artifact, the
coherence section still records the slave import invocation. -/
theorem C4_witness :
    ("s" ++ "_import") ∈ state_with_slave.temp ∧
    Event.invoke .importSlave ("s" ++ "_import.err_log") ∈
      (coh_block oracle_ok ard_gtc "m" "s" true false 0
        state_with_slave).state.trace :=
  ⟨by decide,
    C4_theorem oracle_ok ard_gtc "m" "s" false 0 state_with_slave
      (by decide)⟩

/-- C5: when the master import artifact already exists on disk before the
run, the import section is a no-op continuation, the run is exactly the
pipeline from the next applicable stage onward, and no master import
invocation is ever recorded. -/
theorem C5_theorem (o : Oracle) (ard : Ard) (mId sId : String)
    (coherence remove_slave_import : Bool) (s : RunState)
    (hexists : (mId ++ "_import") ∈ s.temp)
    (hni : ∀ l, Event.invoke .importMaster l ∉ s.trace) :
    import_block o mId s = .cont 0 s ∧
    burst_to_ard o ard mId sId coherence remove_slave_import s =
      Flow.finish (rest_flow o ard mId sId coherence remove_slave_import
        0 s) final_block ∧
    (∀ l, Event.invoke .importMaster l ∉
      (burst_to_ard o ard mId sId coherence remove_slave_import
        s).state.trace) := by
  have hib : import_block o mId s = .cont 0 s := by
    unfold import_block
    rw [if_pos hexists]
  refine ⟨hib, ?_, ?_⟩
  · rw [burst_to_ard, pipeline_flow, hib, Flow.step_cont]
  · intro l hmem
    rw [burst_to_ard, pipeline_flow, hib, Flow.step_cont] at hmem
    have hrk := rest_flow_ok o ard mId sId coherence remove_slave_import 0 s
    rcases hR : rest_flow o ard mId sId coherence remove_slave_import 0 s
      with ⟨rc1, s1⟩ | out
    · rw [hR] at hmem hrk
      simp only [Flow.finish_cont] at hmem
      have hmem2 := final_block_invoke hmem
      have h1 := hrk.1 (Event.invoke .importMaster l) (by simpa using hmem2)
      rcases h1 with h1 | h1 | h1
      · exact hni l h1
      · exact importMaster_not_mem_rest_events ard mId sId coherence l h1
      · exact absurd h1.1 (by simp)
    · rw [hR] at hmem hrk
      simp only [Flow.finish_stop] at hmem
      have h1 := hrk.1 (Event.invoke .importMaster l) (by simpa using hmem)
      rcases h1 with h1 | h1 | h1
      · exact hni l h1
      · exact importMaster_not_mem_rest_events ard mId sId coherence l h1
      · exact absurd h1.1 (by simp)

/-- C5 (witness): at a concrete state already holding the master import
artifact, the import section skips and the specific import invocation is
absent from the final trace. -/
theorem C5_witness :
    ("m" ++ "_import") ∈ state_with_master.temp ∧
    import_block oracle_ok "m" state_with_master =
      .cont 0 state_with_master ∧
    Event.invoke .importMaster ("m" ++ "_import.err_log") ∉
      (burst_to_ard oracle_ok ard_gtc "m" "s" false false
        state_with_master).state.trace :=
  ⟨by decide,
    (C5_theorem oracle_ok ard_gtc "m" "s" false false state_with_master
      (by decide) (fun l => by simp [state_with_master])).1,
    (C5_theorem oracle_ok ard_gtc "m" "s" false false state_with_master
      (by decide) (fun l => by simp [state_with_master])).2.2
      ("m" ++ "_import.err_log")⟩

/-- C9: on every execution path of `burst_to_ard` that reaches the final
completion-marker check (the pipeline continued, i.e. no stage failure
returned early), the last-assigned return code equals 0; consequently the
run writes the marker and returns 0, the else branch that would purge both
directories is not taken, and no output-directory purge ever appears in the
trace. -/
theorem C9_theorem (o : Oracle) (ard : Ard) (mId sId : String)
    (coherence remove_slave_import : Bool) (s : RunState) (rc : Nat)
    (s1 : RunState)
    (h : pipeline_flow o ard mId sId coherence remove_slave_import s =
      .cont rc s1)
    (hpo : Event.purgeOut ∉ s.trace) :
    rc = 0 ∧
    burst_to_ard o ard mId sId coherence remove_slave_import s =
      .ret 0 ⟨s1.temp, s1.outArt, s1.outLogs, true,
        s1.trace ++ [Event.writeMarker]⟩ ∧
    Event.purgeOut ∉ (burst_to_ard o ard mId sId coherence
      remove_slave_import s).state.trace := by
  have h0 := pipeline_cont_rc h
  subst h0
  have heq : burst_to_ard o ard mId sId coherence remove_slave_import s =
      .ret 0 ⟨s1.temp, s1.outArt, s1.outLogs, true,
        s1.trace ++ [Event.writeMarker]⟩ := by
    rw [burst_to_ard, h]
    simp [final_block]
  refine ⟨rfl, heq, ?_⟩
  rw [heq]
  intro hmem
  simp only [Outcome.state_ret, List.mem_append, List.mem_singleton] at hmem
  rcases hmem with hmem | hmem
  · have hbk := pipeline_ok o ard mId sId coherence remove_slave_import s
    rw [h] at hbk
    have h1 := hbk.1 Event.purgeOut (by simpa using hmem)
    rcases h1 with h1 | h1 | h1
    · exact hpo h1
    · exact purgeOut_not_mem_pipeline_events ard mId sId coherence h1
    · exact absurd h1.1 (by simp)
  · exact absurd hmem (by simp)

/-- C9 (witness): a concrete successful run reaches the final check with
return code 0 and its trace holds no output-directory purge. -/
theorem C9_witness :
    pipeline_flow oracle_ok ard_gtc "m" "s" false false RunState.start =
      .cont 0 (Flow.state (pipeline_flow oracle_ok ard_gtc "m" "s" false
        false RunState.start)) ∧
    Event.purgeOut ∉ (burst_to_ard oracle_ok ard_gtc "m" "s" false false
      RunState.start).state.trace :=
  ⟨by decide,
    (C9_theorem oracle_ok ard_gtc "m" "s" false false RunState.start 0
      (Flow.state (pipeline_flow oracle_ok ard_gtc "m" "s" false false
        RunState.start)) (by decide) (by decide)).2.2⟩

/-- C2 (counterexample): the terrain correction applied to the
decomposition product returns a nonzero exit code, but a stale geocoded
decomposition artifact in the temp directory passes the subsequent check,
so the run does not fail: the calibration stage is still attempted and the
whole run returns 0.  This refutes the claim that every nonzero stage exit
code immediately fails the run. -/
theorem C2_counterexample :
    (oracle_fail .haaTc).exitCode .haaTc ≠ 0 ∧
    (burst_to_ard (oracle_fail .haaTc) ard_haa "m" "s" false false
      state_with_pol).code = 0 ∧
    Event.invoke .calibration ("m" ++ "_cal.err_log") ∈
      (burst_to_ard (oracle_fail .haaTc) ard_haa "m" "s" false false
        state_with_pol).state.trace := by decide

/-- C2 (amended): every stage invoked through a wrapper whose exit code is
checked (all stages except the terrain corrections) fails the run
immediately on a nonzero exit code: the section stops, returning exactly
the originating exit code with the temp directory purged, and a stopped
flow passes through every later section unchanged.  For the terrain
corrections of the decomposition and of the backscatter product the exit
code is discarded: the run fails there only if the subsequent artifact
verification fails (returning the verification error code 1), and when a
stale artifact passes the verification the run continues. -/
theorem C2_theorem (o : Oracle) (ard : Ard) (mId sId cur : String)
    (remove_slave_import : Bool) (rc : Nat) (s : RunState) :
    (∀ out g, Flow.step (Flow.stop out) g = Flow.stop out) ∧
    ((mId ++ "_import") ∉ s.temp → o.exitCode .importMaster ≠ 0 →
      (import_block o mId s).failsWith (o.exitCode .importMaster)) ∧
    (ard.h_a_alpha = true → o.exitCode .haAlpha ≠ 0 →
      (haa_block o ard mId rc s).failsWith (o.exitCode .haAlpha)) ∧
    (calibration_graph ard.product_type ≠ none →
      o.exitCode .calibration ≠ 0 →
      (cal_block o ard mId s).failsWith (o.exitCode .calibration)) ∧
    (ard.remove_speckle = true → o.exitCode .speckle ≠ 0 →
      (speckle_block o ard mId cur rc s).failsWith
        (o.exitCode .speckle)) ∧
    (ard.product_type = "RTC" → o.exitCode .terrainFlat ≠ 0 →
      (rtc_block o ard mId cur rc s).failsWith
        (o.exitCode .terrainFlat)) ∧
    (ard.to_db = true → o.exitCode .linToDb ≠ 0 →
      (db_block o ard mId cur rc s).failsWith (o.exitCode .linToDb)) ∧
    (ard.create_ls_mask = true → o.exitCode .lsMask ≠ 0 →
      (ls_block o ard mId cur rc s).failsWith (o.exitCode .lsMask)) ∧
    (o.exitCode .importSlave ≠ 0 →
      (coh_block o ard mId sId true remove_slave_import rc s).failsWith
        (o.exitCode .importSlave)) ∧
    (o.exitCode .importSlave = 0 → o.exitCode .coreg ≠ 0 →
      (coh_block o ard mId sId true remove_slave_import rc s).failsWith
        (o.exitCode .coreg)) ∧
    (o.exitCode .importSlave = 0 → o.exitCode .coreg = 0 →
      o.exitCode .coherenceEst ≠ 0 →
      (coh_block o ard mId sId true remove_slave_import rc s).failsWith
        (o.exitCode .coherenceEst)) ∧
    (o.exitCode .bsTc ≠ 0 → (mId ++ "_bs") ∉ s.temp →
      (bs_tc_block o mId s).failsWith 1) ∧
    (o.exitCode .bsTc ≠ 0 → (mId ++ "_bs") ∈ s.temp →
      o.statsOk (mId ++ "_bs") = true →
      bs_tc_block o mId s = .cont 0
        (move_dimap (mId ++ "_bs")
          (check_out_dimap o (mId ++ "_bs") true
            (run_command o .bsTc (mId ++ "_bs") (mId ++ "_bs_tc.err_log")
              s).2).2)) ∧
    (ard.h_a_alpha = true → o.exitCode .haAlpha = 0 →
      o.exitCode .haaTc ≠ 0 → (mId ++ "_pol") ∉ s.temp →
      (haa_block o ard mId rc s).failsWith 1) := by
  refine ⟨fun out g => rfl, ?_, ?_, ?_, ?_, ?_, ?_, ?_, ?_, ?_, ?_, ?_,
    ?_, ?_⟩
  · intro hni hrc
    unfold import_block _import
    rw [if_neg hni]
    dsimp only
    rw [if_pos (by simpa using hrc)]
    exact ⟨by simp, by simp [remove_folder_content_temp]⟩
  · intro hf hrc
    unfold haa_block _ha_alpha
    rw [if_pos hf]
    dsimp only
    rw [if_pos (by simpa using hrc)]
    exact ⟨by simp, by simp [remove_folder_content_temp]⟩
  · intro hgne hrc
    obtain ⟨g, hg⟩ := Option.ne_none_iff_exists'.mp hgne
    unfold cal_block _calibration
    rw [hg]
    dsimp only
    rw [if_pos (by simpa using hrc)]
    exact ⟨by simp, by simp [remove_folder_content_temp]⟩
  · intro hf hrc
    unfold speckle_block _speckle_filter
    rw [if_pos hf]
    dsimp only
    rw [if_pos (by simpa using hrc)]
    exact ⟨by simp, by simp [remove_folder_content_temp]⟩
  · intro hf hrc
    unfold rtc_block _terrain_flattening
    rw [if_pos hf]
    dsimp only
    rw [if_pos (by simpa using hrc)]
    exact ⟨by simp, by simp [remove_folder_content_temp]⟩
  · intro hf hrc
    unfold db_block _linear_to_db
    rw [if_pos hf]
    dsimp only
    rw [if_pos (by simpa using hrc)]
    exact ⟨by simp, by simp [remove_folder_content_temp]⟩
  · intro hf hrc
    unfold ls_block _ls_mask
    rw [if_pos hf]
    dsimp only
    rw [if_pos (by simpa using hrc)]
    exact ⟨by simp, by simp [remove_folder_content_temp]⟩
  · intro hrc
    rw [coh_block, if_pos rfl]
    unfold _import
    dsimp only
    rw [if_pos (by simpa using hrc)]
    exact ⟨by simp, by simp [remove_folder_content_temp]⟩
  · intro h0 hrc
    rw [coh_block, if_pos rfl]
    unfold _import _coreg2
    dsimp only
    rw [if_neg (by simp [h0])]
    rw [if_pos (by simpa using hrc)]
    exact ⟨by simp, by simp [remove_folder_content_temp]⟩
  · intro h0 h1 hrc
    rw [coh_block, if_pos rfl]
    unfold _import _coreg2
    dsimp only
    rw [if_neg (by simp [h0])]
    rw [if_neg (by simp [h1])]
    unfold coh_tail _coherence
    dsimp only
    rw [if_pos (by simpa using hrc)]
    exact ⟨by simp, by simp [remove_folder_content_temp]⟩
  · intro hrc hni
    unfold bs_tc_block _terrain_correction
    dsimp only
    rw [if_pos (by simp [hrc, hni])]
    exact ⟨by simp [hrc, hni], by simp [remove_folder_content_temp]⟩
  · intro hrc hin hstats
    unfold bs_tc_block _terrain_correction
    dsimp only
    rw [if_neg (by simp [hrc, hin, hstats])]
    simp [hrc, hin, hstats]
  · intro hf h0 hrc hni
    unfold haa_block _ha_alpha _terrain_correction
    rw [if_pos hf]
    dsimp only
    rw [if_neg (by simp [h0])]
    rw [if_pos (by simp [hrc, h0, hni])]
    exact ⟨by simp [hrc, h0, hni], by simp [remove_folder_content_temp]⟩

/-- C2 (witness): at concrete failing inputs, a checked stage (the
master import) fails the run with its own exit code, while a failed backscatter
terrain correction fails it with the verification error instead. -/
theorem C2_witness :
    (import_block (oracle_fail .importMaster) "m"
      RunState.start).failsWith 1 ∧
    (bs_tc_block (oracle_fail .bsTc) "m" RunState.start).failsWith 1 := by
  constructor
  · exact (C2_theorem (oracle_fail .importMaster) ard_gtc "m" "s" "x"
      false 0 RunState.start).2.1 (by decide) (by decide)
  · obtain ⟨c1, c2, c3, c4, c5, c6, c7, c8, c9, c10, c11, c12, c13, c14⟩ :=
      C2_theorem (oracle_fail .bsTc) ard_gtc "m" "s" "x" false 0
        RunState.start
    exact c12 (by decide) (by decide)

/-- The minimal configuration with the RTC product type. -/
def ard_rtc : Ard := ⟨false, false, "RTC", false, false, false,
  "VV, VH", "VV"⟩

/-- C6: the terrain-flattening stage never runs for a non-RTC product type
(no run, successful or failed, records it), and on a fully successful run
it is recorded exactly when the product type is RTC, positioned after
calibration (and after the speckle filter when that is enabled) and before
the backscatter terrain correction. -/
theorem C6_theorem (o : Oracle) (ard : Ard) (mId sId : String)
    (coherence remove_slave_import : Bool) :
    (ard.product_type ≠ "RTC" → ∀ l,
      Event.invoke .terrainFlat l ∉
        (burst_to_ard o ard mId sId coherence remove_slave_import
          RunState.start).state.trace) ∧
    ((∀ t, o.exitCode t = 0) → (∀ n, o.statsOk n = true) →
      calibration_graph ard.product_type ≠ none →
      (sId ++ "_import") ∉
        ([mId ++ "_import", mId ++ "_coreg", mId ++ "_c",
          mId ++ "_coh"] : List String) →
      ∃ sf,
        burst_to_ard o ard mId sId coherence remove_slave_import
          RunState.start = .ret 0 sf ∧
        (StageTag.terrainFlat ∈ stageSeq sf.trace ↔
          ard.product_type = "RTC") ∧
        (ard.product_type = "RTC" →
          (stageSeq sf.trace).indexOf StageTag.calibration <
            (stageSeq sf.trace).indexOf StageTag.terrainFlat ∧
          (stageSeq sf.trace).indexOf StageTag.terrainFlat <
            (stageSeq sf.trace).indexOf StageTag.bsTc ∧
          (ard.remove_speckle = true →
            (stageSeq sf.trace).indexOf StageTag.calibration <
              (stageSeq sf.trace).indexOf StageTag.speckle ∧
            (stageSeq sf.trace).indexOf StageTag.speckle <
              (stageSeq sf.trace).indexOf StageTag.terrainFlat))) := by
  constructor
  · intro hp l hmem
    have hbk := pipeline_ok o ard mId sId coherence remove_slave_import
      RunState.start
    rcases hP : pipeline_flow o ard mId sId coherence remove_slave_import
      RunState.start with ⟨rc, s1⟩ | out
    · rw [hP] at hbk
      rw [burst_to_ard, hP] at hmem
      simp only [Flow.finish_cont] at hmem
      have hmem2 := final_block_invoke hmem
      have h1 := hbk.1 _ (by simpa using hmem2)
      rcases h1 with h1 | h1 | h1
      · simpa [RunState.start] using h1
      · exact terrainFlat_not_mem_pipeline_events ard mId sId coherence hp
          l h1
      · exact absurd h1.1 (by simp)
    · rw [hP] at hbk
      rw [burst_to_ard, hP] at hmem
      simp only [Flow.finish_stop] at hmem
      have h1 := hbk.1 _ (by simpa using hmem)
      rcases h1 with h1 | h1 | h1
      · simpa [RunState.start] using h1
      · exact terrainFlat_not_mem_pipeline_events ard mId sId coherence hp
          l h1
      · exact absurd h1.1 (by simp)
  · intro hex hst hgne hsep
    obtain ⟨g, hg⟩ := Option.ne_none_iff_exists'.mp hgne
    obtain ⟨sf, heq, _, hseq, _⟩ :=
      success_run o ard mId sId coherence remove_slave_import hex hst hg
        hsep
    refine ⟨sf, heq, ?_, ?_⟩
    · rw [hseq]
      by_cases hp : ard.product_type = "RTC"
      · rw [expected_eq_rtc_seq hp]
        simp [rtc_seq_mem, hp]
      · rw [expected_eq_gtc_seq hp]
        simp [gtc_seq_not_mem, hp]
    · intro hp
      rw [hseq, expected_eq_rtc_seq hp]
      have ho := rtc_seq_order ard.h_a_alpha ard.remove_speckle ard.to_db
        ard.create_ls_mask coherence
      exact ⟨ho.1, ho.2.1, fun hspk => (ho.2.2 hspk)⟩

/-- C6 (witness): with the GTCgamma configuration no terrain flattening is
invoked, and a concrete successful RTC run records it. -/
theorem C6_witness :
    Event.invoke .terrainFlat ("m" ++ "_rtc.err_log") ∉
      (burst_to_ard oracle_ok ard_gtc "m" "s" false false
        RunState.start).state.trace ∧
    StageTag.terrainFlat ∈ stageSeq
      (burst_to_ard oracle_ok ard_rtc "m" "s" false false
        RunState.start).state.trace := by
  constructor
  · exact (C6_theorem oracle_ok ard_gtc "m" "s" false false).1 (by decide)
      ("m" ++ "_rtc.err_log")
  · obtain ⟨sf, heq, hmem, _⟩ :=
      (C6_theorem oracle_ok ard_rtc "m" "s" false false).2 (fun _ => rfl)
        (fun _ => rfl) (by decide) (by decide)
    rw [heq]
    exact hmem.mpr (by decide)

/-- C7: for every successful run with coherence requested and
`remove_slave_import` false (every stage exits 0, artifacts verify, the
product type is supported, and the slave burst id does not collide with the
master's artifact names), the slave import artifact is still in the temp
directory afterwards, the master import and coregistration artifacts are
not, and the output directory holds the backscatter artifact, the coherence
artifact and the completion marker. -/
theorem C7_theorem (o : Oracle) (ard : Ard) (mId sId : String)
    (hex : ∀ t, o.exitCode t = 0) (hst : ∀ n, o.statsOk n = true)
    (hgne : calibration_graph ard.product_type ≠ none)
    (hsep : (sId ++ "_import") ∉
      ([mId ++ "_import", mId ++ "_coreg", mId ++ "_c",
        mId ++ "_coh"] : List String)) :
    ∃ sf,
      burst_to_ard o ard mId sId true false RunState.start = .ret 0 sf ∧
      sf.marker = true ∧
      (sId ++ "_import") ∈ sf.temp ∧
      (mId ++ "_import") ∉ sf.temp ∧
      (mId ++ "_coreg") ∉ sf.temp ∧
      (mId ++ "_bs") ∈ sf.outArt ∧
      (mId ++ "_coh") ∈ sf.outArt := by
  obtain ⟨g, hg⟩ := Option.ne_none_iff_exists'.mp hgne
  obtain ⟨sf, heq, hmk, _, hbs, _, _, hcoh, himp, hslave⟩ :=
    success_run o ard mId sId true false hex hst hg hsep
  exact ⟨sf, heq, hmk, hslave rfl rfl, (himp rfl).1, (himp rfl).2, hbs,
    hcoh rfl⟩

/-- C7 (witness): the scenario evaluated at a concrete configuration. -/
theorem C7_witness :
    (burst_to_ard oracle_ok ard_gtc "m" "s" true false
      RunState.start).code = 0 ∧
    ("s" ++ "_import") ∈ (burst_to_ard oracle_ok ard_gtc "m" "s" true false
      RunState.start).state.temp ∧
    ("m" ++ "_import") ∉ (burst_to_ard oracle_ok ard_gtc "m" "s" true false
      RunState.start).state.temp ∧
    ("m" ++ "_bs") ∈ (burst_to_ard oracle_ok ard_gtc "m" "s" true false
      RunState.start).state.outArt ∧
    ("m" ++ "_coh") ∈ (burst_to_ard oracle_ok ard_gtc "m" "s" true false
      RunState.start).state.outArt ∧
    (burst_to_ard oracle_ok ard_gtc "m" "s" true false
      RunState.start).state.marker = true := by
  obtain ⟨sf, heq, hmk, hslave, himp, _, hbs, hcoh⟩ :=
    C7_theorem oracle_ok ard_gtc "m" "s" (fun _ => rfl) (fun _ => rfl)
      (by decide) (by decide)
  rw [heq]
  exact ⟨rfl, hslave, himp, hbs, hcoh, hmk⟩

/-- C8: for every run started from empty directories, every engine
invocation recorded in the trace carries the log file named by the burst id
and the stage, and that log file is present in the output directory when
the run returns — also after failed runs, whose cleanup purges only the
temp directory. -/
theorem C8_theorem (o : Oracle) (ard : Ard) (mId sId : String)
    (coherence remove_slave_import : Bool) (tag : StageTag) (l : String)
    (hmem : Event.invoke tag l ∈
      (burst_to_ard o ard mId sId coherence remove_slave_import
        RunState.start).state.trace) :
    l = stage_log mId sId tag ∧
    l ∈ (burst_to_ard o ard mId sId coherence remove_slave_import
      RunState.start).state.outLogs := by
  have hbk := pipeline_ok o ard mId sId coherence remove_slave_import
    RunState.start
  rcases hP : pipeline_flow o ard mId sId coherence remove_slave_import
    RunState.start with ⟨rc, s1⟩ | out
  · have h0 := pipeline_cont_rc hP
    subst h0
    rw [hP] at hbk
    rw [burst_to_ard, hP] at hmem ⊢
    simp only [Flow.finish_cont] at hmem ⊢
    have hmem2 := final_block_invoke hmem
    have h4 := hbk.2.2.2.1 tag l (by simpa using hmem2)
    rcases h4 with h4 | h4
    · simp [RunState.start] at h4
    · refine ⟨h4.1, ?_⟩
      simp only [final_block, if_pos rfl, Outcome.state_ret]
      simpa using h4.2
  · rw [hP] at hbk
    rw [burst_to_ard, hP] at hmem ⊢
    simp only [Flow.finish_stop] at hmem ⊢
    have h4 := hbk.2.2.2.1 tag l (by simpa using hmem)
    rcases h4 with h4 | h4
    · simp [RunState.start] at h4
    · exact ⟨h4.1, by simpa using h4.2⟩

/-- C8 (witness): in a concrete failed run, the calibration invocation's
log is named by the burst id and stage and survives in the output
directory. -/
theorem C8_witness :
    (burst_to_ard (oracle_fail .calibration) ard_gtc "m" "s" false false
      RunState.start).code ≠ 0 ∧
    Event.invoke .calibration ("m" ++ "_cal.err_log") ∈
      (burst_to_ard (oracle_fail .calibration) ard_gtc "m" "s" false false
        RunState.start).state.trace ∧
    ("m" ++ "_cal.err_log") = stage_log "m" "s" .calibration ∧
    ("m" ++ "_cal.err_log") ∈
      (burst_to_ard (oracle_fail .calibration) ard_gtc "m" "s" false false
        RunState.start).state.outLogs :=
  ⟨by decide, by decide,
    (C8_theorem (oracle_fail .calibration) ard_gtc "m" "s" false false
      .calibration ("m" ++ "_cal.err_log") (by decide)).1,
    (C8_theorem (oracle_fail .calibration) ard_gtc "m" "s" false false
      .calibration ("m" ++ "_cal.err_log") (by decide)).2⟩

/-- C10: for a product type outside {RTC, GTCgamma, GTCsigma} the
calibration wrapper terminates the whole process with exit status 121
before invoking the engine, leaving the state untouched; at the run level
(with the earlier stages succeeding) `burst_to_ard` ends in that process
exit: no run-level `Failed` return is produced, no calibration invocation
is recorded, no purge of either directory happens, and no marker is
written. -/
theorem C10_theorem (o : Oracle) (ard : Ard) (mId sId : String)
    (coherence remove_slave_import : Bool)
    (hbad : calibration_graph ard.product_type = none) :
    (∀ outfile logfile s,
      _calibration o outfile logfile ard.product_type s = .exited 121 s) ∧
    ((∀ t, o.exitCode t = 0) → (∀ n, o.statsOk n = true) →
      ∃ s1,
        burst_to_ard o ard mId sId coherence remove_slave_import
          RunState.start = .procExit 121 s1 ∧
        Event.purgeTemp ∉ s1.trace ∧
        Event.purgeOut ∉ s1.trace ∧
        (∀ l, Event.invoke .calibration l ∉ s1.trace) ∧
        s1.marker = false) := by
  constructor
  · intro outfile logfile s
    unfold _calibration
    rw [hbad]
  · intro hex hst
    obtain ⟨rc1, s1, e1, t1, m1⟩ :=
      import_block_success o mId RunState.start (hex _)
        (by simp [RunState.start])
    obtain ⟨rc2, s2, e2, t2, m2, f2⟩ :=
      haa_block_success o ard mId rc1 s1 hex hst
    have hcal : cal_block o ard mId s2 = .stop (.procExit 121 s2) := by
      unfold cal_block _calibration
      rw [hbad]
    have hburst : burst_to_ard o ard mId sId coherence remove_slave_import
        RunState.start = .procExit 121 s2 := by
      rw [burst_to_ard, pipeline_flow]
      simp only [e1, Flow.step_cont]
      unfold rest_flow
      dsimp only
      simp only [e2, Flow.step_cont, hcal, Flow.step_stop,
        Flow.finish_stop]
    have hib := import_block_ok o mId sId RunState.start
    rw [e1] at hib
    have hhb := haa_block_ok o ard mId sId rc1 s1
    rw [e2] at hhb
    have htr : ∀ e, e ∈ s2.trace →
        e ∈ [Event.invoke .importMaster (mId ++ "_import.err_log"),
             Event.invoke .haAlpha (mId ++ "_haa.err_log"),
             Event.invoke .haaTc (mId ++ "_haa_tc.err_log"),
             Event.checkDimap (mId ++ "_pol"),
             Event.moveOut (mId ++ "_pol"),
             Event.deleteArt (mId ++ "_h")] := by
      intro e he
      rcases hhb.1 e (by simpa using he) with h' | h' | h'
      · rcases hib.1 e (by simpa using h') with h'' | h'' | h''
        · simp [RunState.start] at h''
        · simp only [List.mem_singleton] at h''
          simp [h'']
        · obtain ⟨_, c, s', hcs⟩ := h''
          exact absurd hcs (by simp)
      · simp only [List.mem_cons, List.not_mem_nil, or_false] at h'
        rcases h' with h' | h' | h' | h' | h' <;> simp [h']
      · obtain ⟨_, c, s', hcs⟩ := h'
        exact absurd hcs (by simp)
    refine ⟨s2, hburst, ?_, ?_, ?_, ?_⟩
    · intro hmem
      have := htr _ hmem
      simp at this
    · intro hmem
      have := htr _ hmem
      simp at this
    · intro l hmem
      have := htr _ hmem
      simp at this
    · have hm2 : s2.marker = s1.marker := by simpa using hhb.2.1
      have hm1 : s1.marker = RunState.start.marker := by simpa using hib.2.1
      rw [hm2, hm1]
      rfl

/-- C10 (witness): at a concrete unsupported product type, the run ends in
a process exit with status 121 and no run-level return. -/
theorem C10_witness :
    calibration_graph ard_bad.product_type = none ∧
    (burst_to_ard oracle_ok ard_bad "m" "s" false false
      RunState.start).isRet = false ∧
    (burst_to_ard oracle_ok ard_bad "m" "s" false false
      RunState.start).code = 121 := by
  refine ⟨by decide, ?_, ?_⟩ <;>
  · obtain ⟨s1, heq, _⟩ :=
      (C10_theorem oracle_ok ard_bad "m" "s" false false (by decide)).2
        (fun _ => rfl) (fun _ => rfl)
    rw [heq]
    rfl

end OST
